import Mathlib

/-
Verification development for the fiora chat server's session, conversation
and deletion logic (packages/server/src/routes/bot.ts — the concatenated
bot/user route module —, packages/server/src/services/llm.ts,
packages/server/src/utils/ldap.ts, and the mongoose conversation/bot models).

The durable store (mongoose collections) is modelled as lists of records
inside a single `World`; the expiring key-value store (redis) as an
association list plus a set of keys whose reads fail (modelling connection
errors); the socket.io transport as a list of live transport ids plus an
append-only emitted-event log.  ObjectIds are modelled as naturals drawn
from a fresh-id counter.  Opaque external primitives (bcrypt, random
avatars) are modelled by their defining properties, as the spec treats them
as external collaborators.
-/

namespace Fiora

/-- Role of one conversation turn (conversation.ts: role enum). -/
inductive Role
  | user
  | assistant
  | system
deriving DecidableEq, Repr

/-- One turn stored inside a Conversation document (ConversationMessageSchema). -/
structure Turn where
  role : Role
  content : String
  createTime : Nat
deriving DecidableEq, Repr

/-- Responder configuration (bot model `config`).  The floating-point
`temperature` field is carried opaquely by the source and examined by no
claim; floating point is outside the embedding, so it is omitted. -/
structure BotConfig where
  llmUrl : String
  apiKey : String
  model : String
  systemPrompt : String
  maxTokens : Nat
  maxHistory : Nat
deriving DecidableEq, Repr

/-- The singleton ai responder record (bot model). -/
structure BotRec where
  id : Nat
  name : String
  avatar : String
  enabled : Bool
  config : BotConfig
  creator : Option Nat
deriving DecidableEq, Repr

/-- A Conversation document: unique per (user, bot, group) triple. -/
structure ConversationRec where
  id : Nat
  user : Nat
  bot : Nat
  group : Option Nat
  messages : List Turn
  createTime : Nat
  lastActiveTime : Nat
deriving DecidableEq, Repr

/-- A User (identity) document. `authProvider` is the empty string when the
schema field was never set (register path), matching the source's
`user.authProvider || 'local'` reads. -/
structure UserRec where
  id : Nat
  username : String
  salt : String
  password : String
  avatar : String
  tag : String
  createTime : Nat
  lastLoginTime : Nat
  lastLoginIp : String
  authProvider : String
deriving DecidableEq, Repr

/-- A Group document. -/
structure GroupRec where
  id : Nat
  name : String
  avatar : String
  isDefault : Bool
  creator : Option Nat
  members : List Nat
  createTime : Nat
deriving DecidableEq, Repr

/-- A directed friendship edge (friend model). -/
structure FriendRec where
  fromId : Nat
  toId : Nat
deriving DecidableEq, Repr

/-- A Message document (field `from` renamed `fromId`: `from` is reserved). -/
structure MessageRec where
  id : Nat
  fromId : Nat
  toId : Nat
  msgType : String
  content : String
  createTime : Nat
deriving DecidableEq, Repr

/-- A History (audit) record referencing a message id. -/
structure HistoryRec where
  id : Nat
  message : Nat
deriving DecidableEq, Repr

/-- A persisted Socket (connection registry) document. -/
structure SocketRec where
  sid : Nat
  user : Option Nat
  ip : String
  os : String
  browser : String
  environment : String
deriving DecidableEq, Repr

/-- A notification subscription record. -/
structure NotifRec where
  user : Nat
  token : String
deriving DecidableEq, Repr

/-- Keys of the expiring key-value store (initRedis key constructors). -/
inductive RedisKey
  | sealUser (userId : Nat)
  | bannedUsername (username : String)
  | newUser (userId : Nat)
  | newRegisteredUserIp (ip : String)
  | disableRegister
deriving DecidableEq, Repr

/-- Expiring key-value store: stored entries plus the set of keys whose
reads currently fail (modelling redis connection errors; writes are taken
to succeed, which is the only failure shape the claims exercise). -/
structure RedisState where
  data : List (RedisKey × String)
  failing : List RedisKey
deriving DecidableEq, Repr

/-- Events emitted over the live transport. -/
inductive Event
  | botMessageStream (target tempMessageId : Nat) (chunk : String) (botId : Nat) (groupId : Option Nat)
  | botMessageComplete (target tempMessageId messageId : Nat) (content : String)
  | botMessageError (target tempMessageId : Nat) (cause : String)
  | forceLogout (socketId : Nat) (reason : String)
deriving DecidableEq, Repr

/-- A bearer token: either a payload signed with some secret (jwt.encode)
or a syntactically malformed string that jwt.decode rejects. -/
inductive Token
  | signed (user : Nat) (environment : String) (expires : Nat) (secret : String)
  | malformed (raw : String)
deriving DecidableEq, Repr

/-- The issuing connection (ctx.socket): transport id, peer address, the
bound identity, and the joined rooms. -/
structure Conn where
  id : Nat
  ip : String
  user : Option Nat
  rooms : List Nat
deriving DecidableEq, Repr

/-- Static server configuration (config/server). -/
structure ServerConfig where
  jwtSecret : String
  tokenExpiresTime : Nat
  disableRegister : Bool
  administrator : List Nat
deriving DecidableEq, Repr

/-- The whole modelled system state: durable collections, the singleton
responder, the expiring store, live transport ids, the emitted-event log,
and the fresh ObjectId counter. -/
structure World where
  users : List UserRec
  groups : List GroupRec
  friends : List FriendRec
  messages : List MessageRec
  histories : List HistoryRec
  sockets : List SocketRec
  notifications : List NotifRec
  conversations : List ConversationRec
  bot : Option BotRec
  redis : RedisState
  live : List Nat
  events : List Event
  nextId : Nat
deriving DecidableEq, Repr

/-- Result of one route invocation: the post state and either the returned
value or the raised (or returned-as-string) error message. -/
structure OpResult (α : Type) where
  world : World
  out : Except String α

deriving instance DecidableEq for Except

instance [DecidableEq α] : DecidableEq (OpResult α) := fun a b =>
  decidable_of_iff (a.world = b.world ∧ a.out = b.out)
    (by cases a; cases b; simp)

/-- Failed invocation leaving state `w`. -/
def opErr (w : World) (msg : String) : OpResult α := ⟨w, .error msg⟩

/-- One day in milliseconds (user routes: OneDay). -/
def OneDay : Nat := 1000 * 60 * 60 * 24

/-- Model of utils/getRandomAvatar (opaque external helper). -/
def randomAvatar : String := "avatar:random"

/-- Model of bcrypt.genSalt (opaque external primitive). -/
def bcryptSalt : String := "salt"

/-- Model of bcrypt.hash: the hash primitive is an opaque external
collaborator, modelled by its defining property
bcryptCompare p (bcryptHash q s) = (p = q). -/
def bcryptHash (password : String) (_salt : String) : String := password

/-- Model of bcrypt.compareSync (see bcryptHash). -/
def bcryptCompare (password hash : String) : Bool := password == hash

/-- JavaScript parseInt on the strings this code stores: the maximal
leading digit run, none when the string yields NaN. -/
def jsParseInt (s : String) : Option Nat :=
  let ds := s.toList.takeWhile Char.isDigit
  if ds.isEmpty then none
  else some (ds.foldl (fun n c => n * 10 + (c.toNat - 48)) 0)

/-- JavaScript `x || d` on an optional string (absent or empty is falsy). -/
def jsOr (o : Option String) (d : String) : String :=
  match o with
  | some s => if s == "" then d else s
  | none => d

/-- JavaScript `x || d` on an optional number (absent or zero is falsy). -/
def jsOrNat (o : Option Nat) (d : Nat) : Nat :=
  match o with
  | some n => if n == 0 then d else n
  | none => d

/-- Read a key (Redis.get): fails when the key is in the failing set. -/
def redisGet (w : World) (k : RedisKey) : Except String (Option String) :=
  if w.redis.failing.contains k then .error "Redis unavailable"
  else .ok ((w.redis.data.find? (fun p => p.1 == k)).map (fun p => p.2))

/-- Existence check (Redis.has). -/
def redisHas (w : World) (k : RedisKey) : Except String Bool :=
  (redisGet w k).map (fun o => o.isSome)

/-- Write a key (Redis.set; the TTL only governs later absence, which the
state already ranges over, so it is not tracked). -/
def redisSet (w : World) (k : RedisKey) (v : String) : World :=
  { w with redis := { w.redis with
      data := (w.redis.data.filter (fun p => p.1 != k)) ++ [(k, v)] } }

/-- Delete a key (Redis.del). -/
def redisDelKey (w : World) (k : RedisKey) : World :=
  { w with redis := { w.redis with
      data := w.redis.data.filter (fun p => p.1 != k) } }

/-- Replace a saved Group document by id. -/
def saveGroup (w : World) (g : GroupRec) : World :=
  { w with groups := w.groups.map (fun g0 => if g0.id == g.id then g else g0) }

/-- Replace a saved User document by id. -/
def saveUser (w : World) (u : UserRec) : World :=
  { w with users := w.users.map (fun u0 => if u0.id == u.id then u else u0) }

/-- Socket.updateOne({id}, {user, os, browser, environment}). -/
def updateSocketDoc (w : World) (sid uid : Nat) (os browser environment : String) : World :=
  { w with sockets := w.sockets.map (fun s =>
      if s.sid == sid then
        { s with user := some uid, os := os, browser := browser, environment := environment }
      else s) }

/-- Outcome of one external completion call as seen through llm.ts: the
fragments handed to the onChunk callback, and whether the stream ended
normally (chat resolves with the concatenated text) or failed (chat's
catch wraps the cause and re-raises). -/
inductive LLMResult
  | success (chunks : List String)
  | failure (chunks : List String) (cause : String)
deriving DecidableEq, Repr

/-- Fragments forwarded before the call settled. -/
def LLMResult.chunks : LLMResult → List String
  | .success cs => cs
  | .failure cs _ => cs

/-- configureBot's incoming config payload (optional fields are absent keys). -/
structure BotConfigInput where
  llmUrl : String
  apiKey : String
  model : String
  systemPrompt : Option String
  maxTokens : Option Nat
  maxHistory : Option Nat
deriving DecidableEq, Repr

/-- The responder view configureBot and getBotConfig return. -/
structure BotView where
  id : Nat
  name : String
  avatar : String
  enabled : Bool
  config : BotConfig
deriving DecidableEq, Repr

/-- Default system prompt (bot model / configureBot create path). -/
def defaultSystemPrompt : String := "你是一个友好的AI助手，请用简洁、准确的语言回答用户的问题。"

/-- configureBot (bot.ts): admin-only create-or-update of the singleton
responder; the returned view always masks the api key. -/
def configureBot (w : World) (isAdmin : Bool) (callerUser : Option Nat)
    (name : String) (avatar : Option String) (c : BotConfigInput) : OpResult BotView :=
  if !isAdmin then opErr w "只有管理员可以配置AI机器人" else
  if name == "" then opErr w "机器人名称不能为空" else
  if c.llmUrl == "" then opErr w "LLM URL不能为空" else
  if c.apiKey == "" then opErr w "API Key不能为空" else
  if c.model == "" then opErr w "模型名称不能为空" else
  match w.bot with
  | some bot =>
    let newCfg : BotConfig :=
      { llmUrl := c.llmUrl
        apiKey := c.apiKey
        model := c.model
        systemPrompt := c.systemPrompt.getD bot.config.systemPrompt
        maxTokens := c.maxTokens.getD bot.config.maxTokens
        maxHistory := c.maxHistory.getD bot.config.maxHistory }
    let bot' : BotRec :=
      { bot with
        name := name
        avatar := match avatar with
          | some a => if a == "" then bot.avatar else a
          | none => bot.avatar
        config := newCfg
        creator := callerUser }
    ⟨{ w with bot := some bot' },
      .ok ⟨bot'.id, bot'.name, bot'.avatar, bot'.enabled, { newCfg with apiKey := "***" }⟩⟩
  | none =>
    let cfg0 : BotConfig :=
      { llmUrl := c.llmUrl
        apiKey := c.apiKey
        model := c.model
        systemPrompt := jsOr c.systemPrompt defaultSystemPrompt
        maxTokens := jsOrNat c.maxTokens 2000
        maxHistory := jsOrNat c.maxHistory 10 }
    let bot' : BotRec := ⟨w.nextId, name, jsOr avatar randomAvatar, false, cfg0, callerUser⟩
    ⟨{ w with bot := some bot', nextId := w.nextId + 1 },
      .ok ⟨bot'.id, bot'.name, bot'.avatar, bot'.enabled, { cfg0 with apiKey := "***" }⟩⟩

/-- getBotConfig (bot.ts): the responder view; the api key is masked for
everyone but administrators. -/
def getBotConfig (w : World) (isAdmin : Bool) : Option BotView :=
  match w.bot with
  | none => none
  | some bot =>
    some ⟨bot.id, bot.name, bot.avatar, bot.enabled,
      { bot.config with apiKey := if isAdmin then bot.config.apiKey else "***" }⟩

/-- generateToken (user routes): jwt.encode of {user, environment,
expires = now + configured TTL} with the server secret. -/
def generateToken (user : Nat) (environment : String) (now : Nat)
    (cfg : ServerConfig) : Token :=
  Token.signed user environment (now + cfg.tokenExpiresTime) cfg.jwtSecret

/-- jwt.decode with signature verification: wrong secret or a malformed
string raises, modelled as none. -/
def jwtDecode (t : Token) (secret : String) : Option (Nat × String × Nat) :=
  match t with
  | .signed u env expires s => if s == secret then some (u, env, expires) else none
  | .malformed _ => none

/-- handleNewUser (user routes): for an identity created within the last
24h, flag it as new and, when an address is given, bump that address's 24h
registration counter (reading the current value first — a read that can
raise, which this function does not catch). -/
def handleNewUser (w : World) (u : UserRec) (ip : String) (now : Nat) :
    Except String World :=
  if now - u.createTime < OneDay then
    if ip != "" then
      match redisGet (redisSet w (RedisKey.newUser u.id) (toString u.id))
          (RedisKey.newRegisteredUserIp ip) with
      | .error e => .error e
      | .ok v =>
        .ok (redisSet (redisSet w (RedisKey.newUser u.id) (toString u.id))
          (RedisKey.newRegisteredUserIp ip)
          (match jsParseInt (jsOr v "0") with
            | some n => toString (n + 1)
            | none => "NaN"))
    else .ok (redisSet w (RedisKey.newUser u.id) (toString u.id))
  else .ok w

/-- register's incoming payload. -/
structure RegisterInput where
  username : String
  password : String
  os : String
  browser : String
  environment : String
deriving DecidableEq, Repr

/-- The slice of register's return value the claims look at, plus the
rebound connection. -/
structure RegisterResponse where
  userId : Nat
  token : Token
  isAdmin : Bool
  conn : Conn
deriving DecidableEq, Repr

/-- The effective registration-disable flag: the store-backed override
when readable and present, else the static default. -/
def disableRegisterFlag (w : World) (cfg : ServerConfig) : Except String Bool :=
  match redisGet w RedisKey.disableRegister with
  | .error e => .error e
  | .ok v =>
    .ok (match v with
      | some s => s == "true"
      | none => cfg.disableRegister)

/-- The stored 24h counter value for an address as register sees it:
a read failure is caught and treated like an absent record. -/
def rateLimitValue (w : World) (ip : String) : Option String :=
  match redisGet w (RedisKey.newRegisteredUserIp ip) with
  | .error _ => none
  | .ok v => v

/-- register's rate-limit verdict on the observed counter value: reject
exactly when a value was read and parseInt of it is not below 3. -/
def rateLimitRejected (w : World) (ip : String) : Bool :=
  match rateLimitValue w ip with
  | some v =>
    match jsParseInt v with
    | some n => !(n < 3)
    | none => true
  | none => false

/-- register (user routes).  `createOk` stands for the mongoose schema
validation verdict on the new User document (the schema lives outside the
shown sources); when false, register returns the validation message.
Read failures of the banned-name and rate-limit keys are caught and
degrade open; the disable-flag read and the counter bump inside
handleNewUser are not caught. -/
def register (w : World) (cfg : ServerConfig) (conn : Conn) (input : RegisterInput)
    (now : Nat) (createOk : Bool) : OpResult RegisterResponse :=
  match disableRegisterFlag w cfg with
  | .error e => opErr w e
  | .ok disable =>
    if disable then opErr w "注册功能已被禁用, 请联系管理员开通账号" else
    if input.username == "" then opErr w "用户名不能为空" else
    if input.password == "" then opErr w "密码不能为空" else
    let bannedBlock := match redisHas w (RedisKey.bannedUsername input.username) with
      | .error _ => false
      | .ok b => b
    if bannedBlock then opErr w "该用户名已被封禁，无法使用" else
    match w.users.find? (fun u => u.username == input.username) with
    | some _ => opErr w "该用户名已存在"
    | none =>
      if rateLimitRejected w conn.ip then
        opErr w "24小时内同一IP地址最多只能注册3个账号，请稍后再试"
      else
      match w.groups.find? (fun g => g.isDefault) with
      | none => opErr w "默认群组不存在"
      | some dg =>
        if !createOk then opErr w "用户名包含不支持的字符或者长度超过限制" else
        let u : UserRec :=
          ⟨w.nextId, input.username, bcryptSalt, bcryptHash input.password bcryptSalt,
            randomAvatar, "", now, 0, conn.ip, ""⟩
        let w1 := { w with users := w.users ++ [u], nextId := w.nextId + 1 }
        match handleNewUser w1 u conn.ip now with
        | .error e => opErr w1 e
        | .ok w2 =>
          let dg' := { dg with
            creator := if dg.creator == none then some u.id else dg.creator
            members := dg.members ++ [u.id] }
          let w3 := saveGroup w2 dg'
          let token := generateToken u.id input.environment now cfg
          let w4 := updateSocketDoc w3 conn.id u.id input.os input.browser input.environment
          ⟨w4, .ok ⟨u.id, token, false, { conn with user := some u.id }⟩⟩

/-- Directory service configuration (utils/ldap.ts LdapConfig). -/
structure LdapConfig where
  enable : Bool
  url : String
  bindDN : String
  bindCredentials : String
  searchBase : String
  searchFilter : String
deriving DecidableEq, Repr

/-- The entry a directory search returns (ldap.ts LdapUser, dn only). -/
structure LdapUser where
  dn : String
deriving DecidableEq, Repr

/-- The directory server as an oracle: bind outcomes per (dn, credential)
and search outcomes per (base, filter) — the external boundary of
authenticateWithLdap. -/
structure LdapOracle where
  bindResult : String → String → Except String Unit
  searchResult : String → String → Except String (List String)

/-- formatSearchFilter (ldap.ts): substitute every username placeholder. -/
def formatSearchFilter (template : String) (username : String) : String :=
  template.replace "\x7b\x7busername\x7d\x7d" username

/-- authenticateWithLdap (ldap.ts): service bind, templated search (at
most one entry), then re-bind as the found entry with the presented
secret; an empty search is a clean no-match (ok none) while any failing
step raises. -/
def authenticateWithLdap (cfg : LdapConfig) (o : LdapOracle)
    (username password : String) : Except String (Option LdapUser) :=
  if !cfg.enable then .ok none else
  match o.bindResult cfg.bindDN cfg.bindCredentials with
  | .error e => .error e
  | .ok _ =>
    match o.searchResult cfg.searchBase (formatSearchFilter cfg.searchFilter username) with
    | .error e => .error e
    | .ok [] => .ok none
    | .ok (dn :: _) =>
      match o.bindResult dn password with
      | .error e => .error e
      | .ok _ => .ok (some ⟨dn⟩)

/-- login's directory-side auto-provisioning (login, user routes): create
the identity with provider tag ldap, run handleNewUser with the peer
address, then join the default group.  The whole block sits inside
login's try, so a raise partway through is caught by login with the
partial state kept; the returned option is the value login's `user`
variable holds afterwards. -/
def provisionLdapUser (w : World) (username ip : String) (now : Nat) :
    World × Option UserRec :=
  match w.groups.find? (fun g => g.isDefault) with
  | none => (w, none)
  | some dg =>
    let u : UserRec := ⟨w.nextId, username, "", "", randomAvatar, "", now, now, ip, "ldap"⟩
    let w1 := { w with users := w.users ++ [u], nextId := w.nextId + 1 }
    match handleNewUser w1 u ip now with
    | .error _ => (w1, some u)
    | .ok w2 =>
      let dg' := { dg with
        creator := if dg.creator == none then some u.id else dg.creator
        members := dg.members ++ [u.id] }
      (saveGroup w2 dg', some u)

/-- Auth hint of the login payload (authType). -/
inductive AuthType
  | ldap
  | local
deriving DecidableEq, Repr

/-- login's incoming payload. -/
structure LoginInput where
  username : String
  password : String
  authType : Option AuthType
  os : String
  browser : String
  environment : String
deriving DecidableEq, Repr

/-- The slice of login's return value the claims look at. -/
structure LoginResponse where
  userId : Nat
  token : Token
  isAdmin : Bool
  authProvider : String
  conn : Conn
deriving DecidableEq, Repr

/-- Shared tail of login: last-login update and save, room joins for the
identity's groups, token issue, connection rebind and socket-doc update. -/
def loginFinish (w : World) (cfg : ServerConfig) (conn : Conn) (input : LoginInput)
    (u : UserRec) (now : Nat) : OpResult LoginResponse :=
  let u' := { u with lastLoginTime := now, lastLoginIp := conn.ip }
  let w1 := saveUser w u'
  let groups := w1.groups.filter (fun g => g.members.contains u.id)
  let conn' := { conn with rooms := conn.rooms ++ groups.map (fun g => g.id), user := some u.id }
  let token := generateToken u.id input.environment now cfg
  let w2 := updateSocketDoc w1 conn.id u.id input.os input.browser input.environment
  ⟨w2, .ok ⟨u.id, token, cfg.administrator.contains u.id,
    jsOr (some u.authProvider) "local", conn'⟩⟩

/-- login (user routes): when a directory is configured and the hint does
not force local auth, try the directory first (its raise is caught and
falls back to local); a clean directory success skips the local password
comparison and provisions a missing identity; otherwise the local
credential path runs. -/
def login (w : World) (cfg : ServerConfig) (ldapCfg : LdapConfig) (o : LdapOracle)
    (conn : Conn) (input : LoginInput) (now : Nat) : OpResult LoginResponse :=
  if input.username == "" then opErr w "用户名不能为空" else
  if input.password == "" then opErr w "密码不能为空" else
  let user0 := w.users.find? (fun u => u.username == input.username)
  let phase : World × Option UserRec × Bool :=
    if ldapCfg.enable && !(input.authType == some AuthType.local) then
      match authenticateWithLdap ldapCfg o input.username input.password with
      | .error _ => (w, user0, false)
      | .ok none => (w, user0, false)
      | .ok (some _) =>
        match user0 with
        | some u => (w, some { u with authProvider := "ldap" }, true)
        | none =>
          match provisionLdapUser w input.username conn.ip now with
          | (w', opt) => (w', (opt.map (fun u => { u with authProvider := "ldap" })), true)
    else (w, user0, false)
  match phase with
  | (w1, none, _) => opErr w1 "该用户不存在"
  | (w1, some u, isLdapAuthenticated) =>
    if !isLdapAuthenticated then
      if !(bcryptCompare input.password u.password) then opErr w1 "密码错误"
      else
        match handleNewUser w1 u "" now with
        | .error e => opErr w1 e
        | .ok w2 => loginFinish w2 cfg conn input u now
    else loginFinish w1 cfg conn input u now

/-- The slice of loginByToken's return value the claims look at. -/
structure TokenLoginResponse where
  userId : Nat
  isAdmin : Bool
  conn : Conn
deriving DecidableEq, Repr

/-- loginByToken (user routes): decode failure is returned as the
invalid-token message; then the expiry check, then the environment
(fingerprint) check, then the identity lookup; on success the connection
is rebound without re-verifying credentials. -/
def loginByToken (w : World) (cfg : ServerConfig) (conn : Conn) (t : Token)
    (os browser environment : String) (now : Nat) : OpResult TokenLoginResponse :=
  if t == Token.malformed "" then opErr w "token不能为空" else
  match jwtDecode t cfg.jwtSecret with
  | none => opErr w "非法token"
  | some (uid, tokenEnv, expires) =>
    if !(now < expires) then opErr w "token已过期" else
    if !(environment == tokenEnv) then opErr w "非法登录" else
    match w.users.find? (fun u => u.id == uid) with
    | none => opErr w "用户不存在"
    | some u =>
      match handleNewUser w u "" now with
      | .error e => opErr w e
      | .ok w1 =>
        let u' := { u with lastLoginTime := now, lastLoginIp := conn.ip }
        let w2 := saveUser w1 u'
        let groups := w2.groups.filter (fun g => g.members.contains u.id)
        let conn' := { conn with
          rooms := conn.rooms ++ groups.map (fun g => g.id)
          user := some u.id }
        let w3 := updateSocketDoc w2 conn.id u.id os browser environment
        ⟨w3, .ok ⟨u.id, cfg.administrator.contains u.id, conn'⟩⟩

/-- Failure oracle for deleteUser's store operations, one flag per awaited
cleanup operation in source order.  The redis cleanup is the only one the
source wraps in try/catch. -/
structure DeleteFailures where
  redisDel : Bool
  socketFind : Bool
  messageFind : Bool
  historyDelete : Bool
  messageDelete : Bool
  groupFind : Bool
  groupSave : Bool
  friendDeleteFrom : Bool
  friendDeleteTo : Bool
  socketDelete : Bool
  notificationDelete : Bool
  userDelete : Bool
deriving DecidableEq, Repr

/-- Every store operation succeeds. -/
def noFailures : DeleteFailures :=
  ⟨false, false, false, false, false, false, false, false, false, false, false, false⟩

/-- Only the redis cleanup step fails. -/
def redisOnlyFailure : DeleteFailures :=
  ⟨true, false, false, false, false, false, false, false, false, false, false, false⟩

/-- The message a failed store operation raises with. -/
def dbError : String := "数据库操作失败"

/-- deleteUser step 2: emit forceLogout to each live connection bound to
the identity and disconnect it (iteration modelled as a batch; live
transport ids are unique). -/
def forceDisconnectSockets (w : World) (uid : Nat) : World :=
  let socketIds := (w.sockets.filter (fun s => s.user == some uid)).map (fun s => s.sid)
  let liveTargets := socketIds.filter (fun sid => w.live.contains sid)
  { w with
    events := w.events ++ liveTargets.map
      (fun sid => Event.forceLogout sid "账户已被管理员删除")
    live := w.live.filter (fun sid => !(socketIds.contains sid)) }

/-- deleteUser's cleanup steps 1-6 (everything before the final User
deletion), with the source's error handling: the redis step is caught and
logged, every other failing operation aborts with the state mutated so
far. -/
def deleteUserCleanup (w : World) (u : UserRec) (f : DeleteFailures) :
    World × Except String Unit :=
  let uid := u.id
  let w1 := if f.redisDel then w else
    redisDelKey (redisDelKey (redisDelKey w (RedisKey.sealUser uid))
      (RedisKey.bannedUsername u.username)) (RedisKey.newUser uid)
  if f.socketFind then (w1, .error dbError) else
  let w2 := forceDisconnectSockets w1 uid
  if f.messageFind then (w2, .error dbError) else
  let fromMessages := w2.messages.filter (fun m => m.fromId == uid)
  let step3 : World × Except String Unit :=
    if fromMessages.isEmpty then (w2, .ok ()) else
    if f.historyDelete then (w2, .error dbError) else
    let ids := fromMessages.map (fun m => m.id)
    let w3 := { w2 with histories := w2.histories.filter (fun h => !(ids.contains h.message)) }
    if f.messageDelete then (w3, .error dbError) else
    ({ w3 with messages := w3.messages.filter (fun m => !(m.fromId == uid)) }, .ok ())
  match step3 with
  | (w3, .error e) => (w3, .error e)
  | (w3, .ok _) =>
    if f.groupFind then (w3, .error dbError) else
    let w4 := { w3 with groups := w3.groups.map (fun g =>
      if g.members.contains uid then
        { g with
          members := g.members.erase uid
          creator := if g.creator == some uid then none else g.creator }
      else g) }
    if f.groupSave then (w4, .error dbError) else
    if f.friendDeleteFrom then (w4, .error dbError) else
    let w5 := { w4 with friends := w4.friends.filter (fun fr => !(fr.fromId == uid)) }
    if f.friendDeleteTo then (w5, .error dbError) else
    let w6 := { w5 with friends := w5.friends.filter (fun fr => !(fr.toId == uid)) }
    if f.socketDelete then (w6, .error dbError) else
    let w7 := { w6 with sockets := w6.sockets.filter (fun s => !(s.user == some uid)) }
    if f.notificationDelete then (w7, .error dbError) else
    ({ w7 with notifications := w7.notifications.filter (fun n => !(n.user == uid)) }, .ok ())

/-- deleteUser (user routes): resolve the identity by handle, run the
cleanup steps, and delete the Identity record itself last. -/
def deleteUser (w : World) (username : String) (f : DeleteFailures) : OpResult Unit :=
  if username == "" then opErr w "username不能为空" else
  match w.users.find? (fun u => u.username == username) with
  | none => opErr w "用户不存在"
  | some u =>
    match deleteUserCleanup w u f with
    | (w', .error e) => opErr w' e
    | (w', .ok _) =>
      if f.userDelete then opErr w' dbError else
      ⟨{ w' with users := w'.users.filter (fun u0 => !(u0.id == u.id)) }, .ok ()⟩

/-- hardDeleteUser (user routes): admin-only, resolves by id and delegates
to deleteUser with the resolved handle. -/
def hardDeleteUser (w : World) (isAdmin : Bool) (userId : Nat) (f : DeleteFailures) :
    OpResult Unit :=
  if !isAdmin then opErr w "你不是管理员" else
  match w.users.find? (fun u => u.id == userId) with
  | none => opErr w "用户不存在"
  | some u => deleteUser w u.username f

/-- Empty system state used as the base of the concrete scenarios. -/
def emptyWorld : World :=
  { users := [], groups := [], friends := [], messages := [], histories := [],
    sockets := [], notifications := [], conversations := [], bot := none,
    redis := ⟨[], []⟩, live := [], events := [], nextId := 100 }

/-- An enabled responder used by the concrete scenarios. -/
def cexBot : BotRec :=
  ⟨7, "bot", "a", true, ⟨"http://llm", "key", "m", "sp", 2000, 10⟩, some 1⟩

/-- A user with one authored message, group memberships, friendships, a
socket record and a notification subscription. -/
def c5World : World := { emptyWorld with
  users := [⟨1, "alice", "s", "pw", "a", "", 0, 0, "ip", ""⟩]
  groups := [⟨50, "g", "a", true, some 1, [1, 2], 0⟩]
  friends := [⟨1, 2⟩, ⟨2, 1⟩]
  messages := [⟨20, 1, 50, "text", "m1", 0⟩]
  sockets := [⟨9, some 1, "ip", "", "", ""⟩]
  notifications := [⟨1, "tok"⟩] }

/-- Oracle under which only the message-deletion store call fails. -/
def c5Failures : DeleteFailures := { noFailures with messageDelete := true }

/-- deleteUser on c5World with the message-deletion step failing. -/
def c5Run : OpResult Unit := deleteUser c5World "alice" c5Failures

/-- Registration scenario: server config without static disable. -/
def scenCfg : ServerConfig := ⟨"secret", 1000, false, []⟩

/-- Registration scenario: initial state with a default group. -/
def scenWorld0 : World := { emptyWorld with
  groups := [⟨50, "默认群组", "ga", true, none, [], 0⟩]
  sockets := [⟨9, none, "1.2.3.4", "", "", ""⟩] }

/-- Connection from the rate-limited address. -/
def scenConnA : Conn := ⟨9, "1.2.3.4", none, []⟩

/-- Connection from a different address. -/
def scenConnB : Conn := ⟨9, "5.6.7.8", none, []⟩

/-- Registration payload for a given handle. -/
def scenInput (name : String) : RegisterInput := ⟨name, "pw", "os", "br", "env"⟩

/-- First, second and third registrations from one address, then a fourth
from the same address and one from a different address. -/
def scenR1 : OpResult RegisterResponse :=
  register scenWorld0 scenCfg scenConnA (scenInput "u1") 0 true

/-- Second registration of the scenario. -/
def scenR2 : OpResult RegisterResponse :=
  register scenR1.world scenCfg scenConnA (scenInput "u2") 0 true

/-- Third registration of the scenario. -/
def scenR3 : OpResult RegisterResponse :=
  register scenR2.world scenCfg scenConnA (scenInput "u3") 0 true

/-- Fourth registration from the same address within the window. -/
def scenR4 : OpResult RegisterResponse :=
  register scenR3.world scenCfg scenConnA (scenInput "u4") 0 true

/-- Registration from a different address after three from the first. -/
def scenR5 : OpResult RegisterResponse :=
  register scenR3.world scenCfg scenConnB (scenInput "u5") 0 true

/-- Deletion-completeness scenario: the user is in two groups (creator of
the second in-membership group and of the default), has two friends in
both directions, authored messages with history records, and has live
connections. -/
def c4World : World := { emptyWorld with
  users := [⟨1, "alice", "s", "pw", "a", "", 0, 0, "ip", ""⟩,
    ⟨2, "bob", "s", "pw", "a", "", 0, 0, "ip", ""⟩,
    ⟨3, "carol", "s", "pw", "a", "", 0, 0, "ip", ""⟩]
  groups := [⟨50, "g1", "a", true, some 1, [1, 2], 0⟩,
    ⟨51, "g2", "a", false, some 2, [2, 1, 3], 0⟩]
  friends := [⟨1, 2⟩, ⟨1, 3⟩, ⟨2, 1⟩]
  messages := [⟨20, 1, 50, "text", "m1", 0⟩, ⟨21, 1, 2, "text", "m2", 0⟩,
    ⟨22, 2, 50, "text", "m3", 0⟩]
  histories := [⟨30, 20⟩, ⟨31, 22⟩]
  sockets := [⟨9, some 1, "ip", "", "", ""⟩, ⟨10, some 2, "ip", "", "", ""⟩]
  notifications := [⟨1, "t1"⟩, ⟨2, "t2"⟩]
  live := [9, 10] }

/-- State holding only the responder, for the masking witness. -/
def c9World : World := { emptyWorld with bot := some cexBot }

/-- Identity used by the token-check witness. -/
def c6User : UserRec := ⟨42, "tuser", "s", "pw", "a", "", 0, 0, "ip", ""⟩

/-- State holding the token-check witness identity. -/
def c6World : World := { emptyWorld with users := [c6User] }

/-- Server configuration for the token-check witness. -/
def c6Cfg : ServerConfig := ⟨"sec", 100, false, []⟩

/-- Connection for the token-check witness. -/
def c6Conn : Conn := ⟨9, "ip", none, []⟩

/-- The User document register creates (abbreviation of register's body). -/
def regUser (w : World) (input : RegisterInput) (conn : Conn) (now : Nat) : UserRec :=
  ⟨w.nextId, input.username, bcryptSalt, bcryptHash input.password bcryptSalt,
    randomAvatar, "", now, 0, conn.ip, ""⟩

/-- The default group as saved by register / directory provisioning: the
creator is set to the new identity only when unset, and the new identity
is appended to the member list. -/
def regGroup (dg : GroupRec) (uid : Nat) : GroupRec :=
  { dg with
    creator := if dg.creator == none then some uid else dg.creator
    members := dg.members ++ [uid] }

/-- The User document login's directory provisioning creates (abbreviation
of provisionLdapUser's body). -/
def provUser (w : World) (username ip : String) (now : Nat) : UserRec :=
  ⟨w.nextId, username, "", "", randomAvatar, "", now, now, ip, "ldap"⟩

/-- State-after-increment of the provisioning scenario witness. -/
def c10W2 : World :=
  match handleNewUser
      { scenWorld0 with
        users := scenWorld0.users ++ [regUser scenWorld0 (scenInput "u1") scenConnA 0]
        nextId := scenWorld0.nextId + 1 }
      (regUser scenWorld0 (scenInput "u1") scenConnA 0) "1.2.3.4" 0 with
  | .ok w => w
  | .error _ => emptyWorld

/-- Disabled directory configuration for witnesses that do not exercise it. -/
def c10Ldap : LdapConfig := ⟨false, "", "", "", "", ""⟩

/-- Trivial directory oracle for witnesses that do not exercise it. -/
def c10Oracle : LdapOracle := ⟨fun _ _ => .ok (), fun _ _ => .ok []⟩

/-- Login payload placeholder for witnesses that do not exercise login. -/
def c10Linput : LoginInput := ⟨"", "", none, "", "", ""⟩

/-- Identity with a local password, for the directory-login witness. -/
def c8User : UserRec := ⟨77, "tuser8", "s", "localpw", "a", "", 0, 0, "ip", ""⟩

/-- State holding the directory-login witness identity. -/
def c8World : World := { emptyWorld with users := [c8User] }

/-- Enabled directory configuration for the directory-login witness. -/
def c8Ldap : LdapConfig :=
  ⟨true, "ldap://h", "cn=admin", "pw", "dc=b", "(uid=\x7b\x7busername\x7d\x7d)"⟩

/-- Directory oracle whose binds succeed and whose search finds one entry. -/
def c8Oracle : LdapOracle := ⟨fun _ _ => .ok (), fun _ _ => .ok ["uid=tuser8,dc=b"]⟩

/-- Login payload presenting the directory password, not the local one. -/
def c8Input : LoginInput := ⟨"tuser8", "ldappw", none, "os", "br", "env"⟩

/-- State for the provisioning-failure scenario: a default group, no
identities, and an expiring store whose per-address registration counter
cannot be read. -/
def c8FailWorld : World := { emptyWorld with
  groups := [⟨50, "默认群组", "ga", true, none, [], 0⟩]
  redis := ⟨[], [RedisKey.newRegisteredUserIp "ip"]⟩ }

/-- Login payload for an identity unknown to the local store. -/
def c8FailInput : LoginInput := ⟨"ghost", "ldappw", none, "os", "br", "env"⟩

/-- Directory login of the unknown identity on c8FailWorld: provisioning
starts, the counter read inside handleNewUser raises, and the raise is
caught by login's directory try. -/
def c8FailRun : OpResult LoginResponse :=
  login c8FailWorld c6Cfg c8Ldap c8Oracle c6Conn c8FailInput 5

/-
Helper lemmas shared by the claim theorems.
-/

/-- handleNewUser without an address never raises: only the counter read
can raise, and it is guarded by the address check. -/
theorem handleNewUser_noIp (w : World) (u : UserRec) (now : Nat) :
    handleNewUser w u "" now =
      .ok (if now - u.createTime < OneDay
        then redisSet w (RedisKey.newUser u.id) (toString u.id) else w) := by
  unfold handleNewUser
  split <;> simp

/-- redisGet only raises with the modelled store-unavailable message. -/
theorem redisGet_error_shape (w : World) (k : RedisKey) (e : String)
    (h : redisGet w k = .error e) : e = "Redis unavailable" := by
  unfold redisGet at h
  split at h
  · simp only [Except.error.injEq] at h
    exact h.symm
  · simp at h

/-- handleNewUser only raises with the modelled store-unavailable message. -/
theorem handleNewUser_error_shape (w : World) (u : UserRec) (ip : String) (now : Nat)
    (e : String) (h : handleNewUser w u ip now = .error e) : e = "Redis unavailable" := by
  unfold handleNewUser at h
  by_cases h1 : now - u.createTime < OneDay
  · rw [if_pos h1] at h
    by_cases h2 : (ip != "") = true
    · rw [if_pos h2] at h
      cases hg : redisGet (redisSet w (RedisKey.newUser u.id) (toString u.id))
          (RedisKey.newRegisteredUserIp ip) with
      | error e' =>
        rw [hg] at h
        simp only [Except.error.injEq] at h
        subst h
        exact redisGet_error_shape _ _ _ hg
      | ok v =>
        rw [hg] at h
        simp at h
    · rw [if_neg h2] at h
      simp at h
  · rw [if_neg h1] at h
    simp at h

/-- Auxiliary: lookup in the written association list for a different key. -/
theorem assoc_find_set_ne (l : List (RedisKey × String)) (k k' : RedisKey) (v : String)
    (h : k' ≠ k) :
    ((l.filter (fun p => p.1 != k)) ++ [(k, v)]).find? (fun p => p.1 == k')
      = l.find? (fun p => p.1 == k') := by
  induction l with
  | nil =>
    have hkk : (k == k') = false := by
      simp only [beq_eq_false_iff_ne]
      exact fun hh => h hh.symm
    simp [List.find?, hkk]
  | cons x xs ih =>
    by_cases hx : x.1 = k
    · have hb : (x.1 == k') = false := by
        rw [beq_eq_false_iff_ne, hx]
        exact fun hh => h hh.symm
      rw [List.filter_cons_of_neg (by simp [hx]), ih, List.find?_cons]
      simp [hb]
    · rw [List.filter_cons_of_pos (by simp [hx]), List.cons_append,
        List.find?_cons, List.find?_cons]
      cases hx' : (x.1 == k') with
      | true => simp
      | false => simp [ih]

/-- Writing one key leaves reads of any other key unchanged. -/
theorem redisGet_set_ne (w : World) (k k' : RedisKey) (v : String) (h : k' ≠ k) :
    redisGet (redisSet w k v) k' = redisGet w k' := by
  unfold redisGet redisSet
  simp only
  rw [assoc_find_set_ne _ _ _ _ h]

/-- Reading back a key just written succeeds with the written value when
the key is readable. -/
theorem redisGet_set_self (w : World) (k : RedisKey) (v : String)
    (h : w.redis.failing.contains k = false) :
    redisGet (redisSet w k v) k = .ok (some v) := by
  have hfind : ∀ l : List (RedisKey × String),
      ((l.filter (fun p => p.1 != k)) ++ [(k, v)]).find? (fun p => p.1 == k)
        = some (k, v) := by
    intro l
    induction l with
    | nil => simp [List.find?]
    | cons x xs ih =>
      by_cases hx : x.1 = k
      · rw [List.filter_cons_of_neg (by simp [hx])]
        exact ih
      · have hb : (x.1 == k) = false := by simp [hx]
        rw [List.filter_cons_of_pos (by simp [hx]), List.cons_append, List.find?_cons]
        simp only [hb]
        exact ih
  have hmem : k ∉ w.redis.failing := by
    simp at h
    exact h
  unfold redisGet redisSet
  dsimp only
  rw [if_neg (by simp [hmem]), hfind w.redis.data]
  rfl

/-- Reads are insensitive to group saves. -/
theorem redisGet_saveGroup (w : World) (g : GroupRec) (k : RedisKey) :
    redisGet (saveGroup w g) k = redisGet w k := rfl

/-- Reads are insensitive to user saves. -/
theorem redisGet_saveUser (w : World) (u : UserRec) (k : RedisKey) :
    redisGet (saveUser w u) k = redisGet w k := rfl

/-- Reads are insensitive to socket-document updates. -/
theorem redisGet_updateSocketDoc (w : World) (sid uid : Nat) (os browser env : String)
    (k : RedisKey) : redisGet (updateSocketDoc w sid uid os browser env) k = redisGet w k := rfl

/-- A successful read means the key is not in the failing set. -/
theorem redisGet_ok_not_failing (w : World) (k : RedisKey) (v : Option String)
    (h : redisGet w k = .ok v) : w.redis.failing.contains k = false := by
  unfold redisGet at h
  split at h
  · exact absurd h (by simp)
  · rename_i hc
    simpa using hc

/-- A parsed value is a nonempty string. -/
theorem jsParseInt_ne_empty (v : String) (n : Nat) (h : jsParseInt v = some n) :
    v ≠ "" := by
  intro hv
  subst hv
  simp [jsParseInt] at h

/-- The rate-limit gate rejects exactly when the counter was readable,
present, and does not parse to a count below three. -/
theorem rateLimitRejected_iff (w : World) (ip : String) :
    rateLimitRejected w ip = true ↔
      ∃ v, redisGet w (RedisKey.newRegisteredUserIp ip) = .ok (some v) ∧
        ¬ ∃ n, jsParseInt v = some n ∧ n < 3 := by
  unfold rateLimitRejected rateLimitValue
  cases hg : redisGet w (RedisKey.newRegisteredUserIp ip) with
  | error e => simp [hg]
  | ok v =>
    cases v with
    | none => simp [hg]
    | some s =>
      cases hp : jsParseInt s with
      | none => simp [hg, hp]
      | some n =>
        by_cases hlt : n < 3
        · simp [hg, hp, hlt]
        · simp [hg, hp, hlt]
          omega

/-- A readable absent counter admits. -/
theorem rateLimitRejected_of_none (w : World) (ip : String)
    (h : redisGet w (RedisKey.newRegisteredUserIp ip) = .ok none) :
    rateLimitRejected w ip = false := by
  unfold rateLimitRejected rateLimitValue
  simp [h]

/-- A readable counter below three admits. -/
theorem rateLimitRejected_of_small (w : World) (ip : String) (v : String) (n : Nat)
    (h : redisGet w (RedisKey.newRegisteredUserIp ip) = .ok (some v))
    (hn : jsParseInt v = some n) (hlt : n < 3) :
    rateLimitRejected w ip = false := by
  unfold rateLimitRejected rateLimitValue
  simp [h, hn, hlt]

/-- register on the success path: the full result as one equation. -/
theorem register_success_eq (w : World) (cfg : ServerConfig) (conn : Conn)
    (input : RegisterInput) (now : Nat) (dg : GroupRec) (w2 : World)
    (hd : disableRegisterFlag w cfg = .ok false)
    (hu : input.username ≠ "") (hp : input.password ≠ "")
    (hb : redisHas w (RedisKey.bannedUsername input.username) = .ok false)
    (hfree : w.users.find? (fun u => u.username == input.username) = none)
    (hr : rateLimitRejected w conn.ip = false)
    (hdg : w.groups.find? (fun g => g.isDefault) = some dg)
    (hnu : handleNewUser
        { w with users := w.users ++ [regUser w input conn now], nextId := w.nextId + 1 }
        (regUser w input conn now) conn.ip now = .ok w2) :
    register w cfg conn input now true =
      ⟨updateSocketDoc (saveGroup w2 (regGroup dg w.nextId)) conn.id w.nextId
          input.os input.browser input.environment,
        .ok ⟨w.nextId, generateToken w.nextId input.environment now cfg, false,
          { conn with user := some w.nextId }⟩⟩ := by
  have hnu' : handleNewUser
      { w with
        users := w.users ++
          [⟨w.nextId, input.username, bcryptSalt, bcryptHash input.password bcryptSalt,
            randomAvatar, "", now, 0, conn.ip, ""⟩]
        nextId := w.nextId + 1 }
      ⟨w.nextId, input.username, bcryptSalt, bcryptHash input.password bcryptSalt,
        randomAvatar, "", now, 0, conn.ip, ""⟩ conn.ip now = .ok w2 := hnu
  simp [register, hd, hu, hp, hb, hfree, hr, hdg, hnu', regGroup]

/-
Claim theorems.
-/

/-- C9: for every non-administrator caller, the responder view returned by
getBotConfig carries the literal string containing three asterisks as its
api key regardless of the stored key (two stores differing only in the
api key yield identical non-admin views), configureBot's return value
masks the api key for every caller, and the stored api key is returned
only to administrators via getBotConfig. -/
theorem c9_apikey_masking (w : World) (b : BotRec) (k2 : String) (isAdmin : Bool)
    (callerUser : Option Nat) (name : String) (avatar : Option String)
    (c : BotConfigInput) (r : BotView) :
    (w.bot = some b →
      getBotConfig w false =
        some ⟨b.id, b.name, b.avatar, b.enabled, { b.config with apiKey := "***" }⟩) ∧
    (w.bot = some b →
      getBotConfig { w with bot := some { b with config := { b.config with apiKey := k2 } } } false
        = getBotConfig w false) ∧
    ((configureBot w isAdmin callerUser name avatar c).out = .ok r →
      r.config.apiKey = "***") ∧
    (w.bot = some b →
      getBotConfig w true = some ⟨b.id, b.name, b.avatar, b.enabled, b.config⟩) := by
  refine ⟨?_, ?_, ?_, ?_⟩
  · intro hb
    simp [getBotConfig, hb]
  · intro hb
    simp [getBotConfig, hb]
  · intro hok
    unfold configureBot at hok
    split at hok
    · simp [opErr] at hok
    · split at hok
      · simp [opErr] at hok
      · split at hok
        · simp [opErr] at hok
        · split at hok
          · simp [opErr] at hok
          · split at hok
            · simp [opErr] at hok
            · split at hok
              · simp only [Except.ok.injEq] at hok
                rw [← hok]
              · simp only [Except.ok.injEq] at hok
                rw [← hok]
  · intro hb
    simp [getBotConfig, hb]

/-- Witness for C9 at a concrete state. -/
theorem c9_apikey_masking_witness :
    getBotConfig c9World false =
      some ⟨7, "bot", "a", true, ⟨"http://llm", "***", "m", "sp", 2000, 10⟩⟩ :=
  (c9_apikey_masking c9World cexBot "other" false none "n" none
      ⟨"u", "k", "m", none, none, none⟩ ⟨0, "", "", false, ⟨"", "", "", "", 0, 0⟩⟩).1 rfl

/-- C6: a malformed or wrongly-signed token fails with the invalid-token
error; a token whose expiry has elapsed fails with the token-expired error
regardless of the presented environment; a live token presented with a
different environment fails with the environment-mismatch error; and a
live token presented with its issuing environment passes all three checks
and re-binds the connection to the token's identity. -/
theorem c6_token_checks (w : World) (cfg : ServerConfig) (conn : Conn)
    (issuedUser : Nat) (env clientEnv os browser raw : String) (issueTime now : Nat)
    (u' : Nat) (e' : String) (x' : Nat) (s' : String) (u : UserRec) :
    (raw ≠ "" →
      (loginByToken w cfg conn (Token.malformed raw) os browser clientEnv now).out
        = .error "非法token") ∧
    (s' ≠ cfg.jwtSecret →
      (loginByToken w cfg conn (Token.signed u' e' x' s') os browser clientEnv now).out
        = .error "非法token") ∧
    (issueTime + cfg.tokenExpiresTime ≤ now →
      (loginByToken w cfg conn (generateToken issuedUser env issueTime cfg)
        os browser clientEnv now).out = .error "token已过期") ∧
    (now < issueTime + cfg.tokenExpiresTime → clientEnv ≠ env →
      (loginByToken w cfg conn (generateToken issuedUser env issueTime cfg)
        os browser clientEnv now).out = .error "非法登录") ∧
    (now < issueTime + cfg.tokenExpiresTime →
      w.users.find? (fun u0 => u0.id == issuedUser) = some u →
      ∃ r, (loginByToken w cfg conn (generateToken issuedUser env issueTime cfg)
          os browser env now).out = .ok r ∧ r.conn.user = some issuedUser ∧
        r.userId = issuedUser) := by
  refine ⟨?_, ?_, ?_, ?_, ?_⟩
  · intro h
    simp [loginByToken, jwtDecode, opErr, h]
  · intro h
    simp [loginByToken, jwtDecode, opErr, h]
  · intro h
    have hlt : ¬ (now < issueTime + cfg.tokenExpiresTime) := by omega
    simp [loginByToken, generateToken, jwtDecode, opErr, hlt]
  · intro h1 h2
    simp [loginByToken, generateToken, jwtDecode, opErr, h1, h2]
  · intro hlt hfind
    have hp := List.find?_some hfind
    simp only [beq_iff_eq] at hp
    have hnu := handleNewUser_noIp w u now
    simp [loginByToken, generateToken, jwtDecode, hfind, hnu, hlt, hp]

/-- Witness for C6: a concrete live token issued for environment envA
validates with envA and re-binds the connection to identity 42. -/
theorem c6_token_checks_witness :
    ∃ r, (loginByToken c6World c6Cfg c6Conn (generateToken 42 "envA" 0 c6Cfg)
        "os" "br" "envA" 5).out = .ok r ∧ r.conn.user = some 42 ∧ r.userId = 42 :=
  (c6_token_checks c6World c6Cfg c6Conn 42 "envA" "envB" "os" "br" "x" 0 5
      0 "" 0 "" c6User).2.2.2.2 (by decide) (by decide)

/-- C7: the per-address rate-limit gate admits a registration exactly when
the stored 24h counter is absent, unreadable (read failure degrades open),
or parses to a count below three; a successful registration from a
readable address bumps that address's counter (from absent to one, from n
to n+1); and concretely three registrations from one address succeed, a
fourth from the same address is rejected, one from a different address
succeeds, and the counter then reads three. -/
theorem c7_rate_limit (w : World) (cfg : ServerConfig) (conn : Conn)
    (input : RegisterInput) (now : Nat) (createOk : Bool)
    (hd : disableRegisterFlag w cfg = .ok false)
    (hu : input.username ≠ "") (hp : input.password ≠ "")
    (hb : redisHas w (RedisKey.bannedUsername input.username) = .ok false)
    (hfree : w.users.find? (fun u => u.username == input.username) = none) :
    ((register w cfg conn input now createOk).out
        = .error "24小时内同一IP地址最多只能注册3个账号，请稍后再试" ↔
      ∃ v, redisGet w (RedisKey.newRegisteredUserIp conn.ip) = .ok (some v) ∧
        ¬ ∃ n, jsParseInt v = some n ∧ n < 3) ∧
    (conn.ip ≠ "" →
      redisGet w (RedisKey.newRegisteredUserIp conn.ip) = .ok none →
      (∃ dg, w.groups.find? (fun g => g.isDefault) = some dg) →
      (∃ r, (register w cfg conn input now true).out = .ok r) ∧
        redisGet (register w cfg conn input now true).world
          (RedisKey.newRegisteredUserIp conn.ip) = .ok (some "1")) ∧
    (∀ v n, conn.ip ≠ "" →
      redisGet w (RedisKey.newRegisteredUserIp conn.ip) = .ok (some v) →
      jsParseInt v = some n → n < 3 →
      (∃ dg, w.groups.find? (fun g => g.isDefault) = some dg) →
      (∃ r, (register w cfg conn input now true).out = .ok r) ∧
        redisGet (register w cfg conn input now true).world
          (RedisKey.newRegisteredUserIp conn.ip) = .ok (some (toString (n + 1)))) ∧
    (scenR1.out.toOption.isSome = true ∧ scenR2.out.toOption.isSome = true ∧
      scenR3.out.toOption.isSome = true ∧
      scenR4.out = .error "24小时内同一IP地址最多只能注册3个账号，请稍后再试" ∧
      scenR5.out.toOption.isSome = true ∧
      redisGet scenR3.world (RedisKey.newRegisteredUserIp "1.2.3.4") = .ok (some "3")) := by
  refine ⟨?_, ?_, ?_, by decide⟩
  · rw [← rateLimitRejected_iff w conn.ip]
    constructor
    · intro hout
      by_contra hr
      have hr' : rateLimitRejected w conn.ip = false := by
        cases hrr : rateLimitRejected w conn.ip
        · rfl
        · exact absurd hrr hr
      cases hdg : w.groups.find? (fun g => g.isDefault) with
      | none =>
        simp [register, hd, hu, hp, hb, hfree, hr', hdg, opErr] at hout
      | some dg =>
        cases hco : createOk with
        | false =>
          simp [register, hd, hu, hp, hb, hfree, hr', hdg, hco, opErr] at hout
        | true =>
          cases hnu : handleNewUser
              { w with
                users := w.users ++
                  [⟨w.nextId, input.username, bcryptSalt, bcryptHash input.password bcryptSalt,
                    randomAvatar, "", now, 0, conn.ip, ""⟩]
                nextId := w.nextId + 1 }
              ⟨w.nextId, input.username, bcryptSalt, bcryptHash input.password bcryptSalt,
                randomAvatar, "", now, 0, conn.ip, ""⟩ conn.ip now with
          | error e =>
            have he := handleNewUser_error_shape _ _ _ _ _ hnu
            subst he
            simp [register, hd, hu, hp, hb, hfree, hr', hdg, hco, hnu, opErr] at hout
          | ok w2 =>
            simp [register, hd, hu, hp, hb, hfree, hr', hdg, hco, hnu, opErr] at hout
    · intro hr
      simp [register, hd, hu, hp, hb, hfree, hr, opErr]
  · intro hip hvn hdgex
    obtain ⟨dg, hdg⟩ := hdgex
    have hr' : rateLimitRejected w conn.ip = false := rateLimitRejected_of_none w conn.ip hvn
    have hnu : handleNewUser
        { w with users := w.users ++ [regUser w input conn now], nextId := w.nextId + 1 }
        (regUser w input conn now) conn.ip now
        = .ok (redisSet (redisSet
            { w with users := w.users ++ [regUser w input conn now], nextId := w.nextId + 1 }
            (RedisKey.newUser (regUser w input conn now).id)
            (toString (regUser w input conn now).id))
          (RedisKey.newRegisteredUserIp conn.ip) "1") := by
      unfold handleNewUser
      rw [if_pos (by simp [regUser, OneDay])]
      rw [if_pos (by simp [hip])]
      rw [show redisGet (redisSet
            { w with users := w.users ++ [regUser w input conn now], nextId := w.nextId + 1 }
            (RedisKey.newUser (regUser w input conn now).id)
            (toString (regUser w input conn now).id))
          (RedisKey.newRegisteredUserIp conn.ip) = Except.ok none from by
        rw [redisGet_set_ne _ _ _ _ (by simp)]
        exact hvn]
      rfl
    have heq := register_success_eq w cfg conn input now dg _ hd hu hp hb hfree hr' hdg hnu
    constructor
    · exact ⟨_, by rw [heq]⟩
    · have hworld := congrArg OpResult.world heq
      simp only [hworld]
      rw [redisGet_updateSocketDoc, redisGet_saveGroup]
      exact redisGet_set_self _ _ _ (redisGet_ok_not_failing w _ _ hvn)
  · intro v n hip hv hn hlt hdgex
    obtain ⟨dg, hdg⟩ := hdgex
    have hvne : v ≠ "" := jsParseInt_ne_empty v n hn
    have hr' : rateLimitRejected w conn.ip = false :=
      rateLimitRejected_of_small w conn.ip v n hv hn hlt
    have hnu : handleNewUser
        { w with users := w.users ++ [regUser w input conn now], nextId := w.nextId + 1 }
        (regUser w input conn now) conn.ip now
        = .ok (redisSet (redisSet
            { w with users := w.users ++ [regUser w input conn now], nextId := w.nextId + 1 }
            (RedisKey.newUser (regUser w input conn now).id)
            (toString (regUser w input conn now).id))
          (RedisKey.newRegisteredUserIp conn.ip) (toString (n + 1))) := by
      unfold handleNewUser
      rw [if_pos (by simp [regUser, OneDay])]
      rw [if_pos (by simp [hip])]
      rw [show redisGet (redisSet
            { w with users := w.users ++ [regUser w input conn now], nextId := w.nextId + 1 }
            (RedisKey.newUser (regUser w input conn now).id)
            (toString (regUser w input conn now).id))
          (RedisKey.newRegisteredUserIp conn.ip) = Except.ok (some v) from by
        rw [redisGet_set_ne _ _ _ _ (by simp)]
        exact hv]
      dsimp only
      rw [show jsOr (some v) "0" = v from by simp [jsOr, hvne]]
      rw [hn]
    have heq := register_success_eq w cfg conn input now dg _ hd hu hp hb hfree hr' hdg hnu
    constructor
    · exact ⟨_, by rw [heq]⟩
    · have hworld := congrArg OpResult.world heq
      simp only [hworld]
      rw [redisGet_updateSocketDoc, redisGet_saveGroup]
      exact redisGet_set_self _ _ _ (redisGet_ok_not_failing w _ _ hv)

/-- Witness for C7 at the concrete scenario: the fourth same-address
registration is rejected exactly because the counter reads three. -/
theorem c7_rate_limit_witness :
    ((register scenR3.world scenCfg scenConnA (scenInput "u4") 0 true).out
        = .error "24小时内同一IP地址最多只能注册3个账号，请稍后再试" ↔
      ∃ v, redisGet scenR3.world (RedisKey.newRegisteredUserIp scenConnA.ip) = .ok (some v) ∧
        ¬ ∃ n, jsParseInt v = some n ∧ n < 3) :=
  (c7_rate_limit scenR3.world scenCfg scenConnA (scenInput "u4") 0 true
    (by decide) (by decide) (by decide) (by decide) (by decide)).1

/-- handleNewUser only writes to the expiring store: the durable user and
group collections come through unchanged. -/
theorem handleNewUser_ok_shape (w : World) (u : UserRec) (ip : String) (now : Nat)
    (w' : World) (h : handleNewUser w u ip now = .ok w') :
    w'.users = w.users ∧ w'.groups = w.groups := by
  unfold handleNewUser at h
  split at h
  · split at h
    · cases hg : redisGet (redisSet w (RedisKey.newUser u.id) (toString u.id))
          (RedisKey.newRegisteredUserIp ip) with
      | error e =>
        rw [hg] at h
        exact Except.noConfusion h
      | ok v =>
        rw [hg] at h
        simp only [Except.ok.injEq] at h
        subst h
        exact ⟨rfl, rfl⟩
    · simp only [Except.ok.injEq] at h
      subst h
      exact ⟨rfl, rfl⟩
  · simp only [Except.ok.injEq] at h
    subst h
    exact ⟨rfl, rfl⟩

/-- loginFinish leaves the group collection untouched. -/
theorem loginFinish_world_groups (w : World) (cfg : ServerConfig) (conn : Conn)
    (input : LoginInput) (u : UserRec) (now : Nat) :
    (loginFinish w cfg conn input u now).world.groups = w.groups := rfl

/-- loginFinish saves only the last-login fields of the identity. -/
theorem loginFinish_world_users (w : World) (cfg : ServerConfig) (conn : Conn)
    (input : LoginInput) (u : UserRec) (now : Nat) :
    (loginFinish w cfg conn input u now).world.users
      = w.users.map (fun u0 => if u0.id == u.id then
          { u with lastLoginTime := now, lastLoginIp := conn.ip } else u0) := rfl

/-- loginFinish succeeds and reports the identity, its provider tag, and
the rebound connection. -/
theorem loginFinish_out_shape (w : World) (cfg : ServerConfig) (conn : Conn)
    (input : LoginInput) (u : UserRec) (now : Nat) :
    ∃ r, (loginFinish w cfg conn input u now).out = .ok r ∧
      r.authProvider = jsOr (some u.authProvider) "local" ∧ r.userId = u.id ∧
      r.conn.user = some u.id :=
  ⟨_, rfl, rfl, rfl, rfl⟩

/-- login on the directory-provisioning success path: the full result as
one equation. -/
theorem login_provision_eq (w : World) (cfg : ServerConfig) (ldapCfg : LdapConfig)
    (o : LdapOracle) (conn : Conn) (input : LoginInput) (now : Nat) (dg : GroupRec)
    (w2 : World) (du : LdapUser)
    (hen : ldapCfg.enable = true)
    (hhint : input.authType ≠ some AuthType.local)
    (hu : input.username ≠ "") (hp : input.password ≠ "")
    (hauth : authenticateWithLdap ldapCfg o input.username input.password = .ok (some du))
    (hfree : w.users.find? (fun u => u.username == input.username) = none)
    (hdg : w.groups.find? (fun g => g.isDefault) = some dg)
    (hnu : handleNewUser
        { w with users := w.users ++ [provUser w input.username conn.ip now], nextId := w.nextId + 1 }
        (provUser w input.username conn.ip now) conn.ip now = .ok w2) :
    login w cfg ldapCfg o conn input now =
      loginFinish (saveGroup w2 (regGroup dg w.nextId)) cfg conn input
        (provUser w input.username conn.ip now) now := by
  have hh : (input.authType == some AuthType.local) = false :=
    beq_eq_false_iff_ne.mpr hhint
  have hnu' : handleNewUser
      { w with
        users := w.users ++ [⟨w.nextId, input.username, "", "", randomAvatar, "", now, now, conn.ip, "ldap"⟩]
        nextId := w.nextId + 1 }
      ⟨w.nextId, input.username, "", "", randomAvatar, "", now, now, conn.ip, "ldap"⟩
      conn.ip now = .ok w2 := hnu
  simp [login, hu, hp, hen, hh, hauth, hfree, provisionLdapUser, hdg, hnu', provUser,
    regGroup, loginFinish]

/-- login on the directory-provisioning path when the counter read inside
handleNewUser raises: the raise is caught by login's directory try, the
join to the default group is skipped, and login finishes on the partially
provisioned state. -/
theorem login_provision_err_eq (w : World) (cfg : ServerConfig) (ldapCfg : LdapConfig)
    (o : LdapOracle) (conn : Conn) (input : LoginInput) (now : Nat) (dg : GroupRec)
    (du : LdapUser) (e : String)
    (hen : ldapCfg.enable = true)
    (hhint : input.authType ≠ some AuthType.local)
    (hu : input.username ≠ "") (hp : input.password ≠ "")
    (hauth : authenticateWithLdap ldapCfg o input.username input.password = .ok (some du))
    (hfree : w.users.find? (fun u => u.username == input.username) = none)
    (hdg : w.groups.find? (fun g => g.isDefault) = some dg)
    (hnu : handleNewUser
        { w with users := w.users ++ [provUser w input.username conn.ip now], nextId := w.nextId + 1 }
        (provUser w input.username conn.ip now) conn.ip now = .error e) :
    login w cfg ldapCfg o conn input now =
      loginFinish
        { w with users := w.users ++ [provUser w input.username conn.ip now], nextId := w.nextId + 1 }
        cfg conn input (provUser w input.username conn.ip now) now := by
  have hh : (input.authType == some AuthType.local) = false :=
    beq_eq_false_iff_ne.mpr hhint
  have hnu' : handleNewUser
      { w with
        users := w.users ++ [⟨w.nextId, input.username, "", "", randomAvatar, "", now, now, conn.ip, "ldap"⟩]
        nextId := w.nextId + 1 }
      ⟨w.nextId, input.username, "", "", randomAvatar, "", now, now, conn.ip, "ldap"⟩
      conn.ip now = .error e := hnu
  simp [login, hu, hp, hen, hh, hauth, hfree, provisionLdapUser, hdg, hnu', provUser,
    loginFinish]

/-- C10: on every successful registration and on every directory-login
auto-provisioning, the default group is saved with the new identity
appended to its member list and with its creator reference set to the new
identity exactly when it was unset before (regGroup), all other groups
untouched. -/
theorem c10_default_group_creator (w : World) (cfg : ServerConfig) (ldapCfg : LdapConfig)
    (o : LdapOracle) (conn : Conn) (input : RegisterInput) (linput : LoginInput)
    (now : Nat) (dg : GroupRec)
    (hdg : w.groups.find? (fun g => g.isDefault) = some dg) :
    (disableRegisterFlag w cfg = .ok false →
      input.username ≠ "" → input.password ≠ "" →
      redisHas w (RedisKey.bannedUsername input.username) = .ok false →
      w.users.find? (fun u => u.username == input.username) = none →
      rateLimitRejected w conn.ip = false →
      ∀ w2, handleNewUser
          { w with users := w.users ++ [regUser w input conn now], nextId := w.nextId + 1 }
          (regUser w input conn now) conn.ip now = .ok w2 →
      (register w cfg conn input now true).world.groups
          = w.groups.map (fun g => if g.id == dg.id then regGroup dg w.nextId else g) ∧
      ∃ r, (register w cfg conn input now true).out = .ok r ∧ r.userId = w.nextId) ∧
    (ldapCfg.enable = true → linput.authType ≠ some AuthType.local →
      linput.username ≠ "" → linput.password ≠ "" →
      ∀ du, authenticateWithLdap ldapCfg o linput.username linput.password = .ok (some du) →
      w.users.find? (fun u => u.username == linput.username) = none →
      ∀ w2, handleNewUser
          { w with users := w.users ++ [provUser w linput.username conn.ip now], nextId := w.nextId + 1 }
          (provUser w linput.username conn.ip now) conn.ip now = .ok w2 →
      (login w cfg ldapCfg o conn linput now).world.groups
          = w.groups.map (fun g => if g.id == dg.id then regGroup dg w.nextId else g) ∧
      ∃ r, (login w cfg ldapCfg o conn linput now).out = .ok r ∧ r.userId = w.nextId) := by
  constructor
  · intro hd hu hp hb hfree hr w2 hnu
    have heq := register_success_eq w cfg conn input now dg w2 hd hu hp hb hfree hr hdg hnu
    have hg2 : w2.groups = w.groups := (handleNewUser_ok_shape _ _ _ _ _ hnu).2
    constructor
    · have hgw : (register w cfg conn input now true).world.groups
          = (saveGroup w2 (regGroup dg w.nextId)).groups := by rw [heq]; rfl
      rw [hgw]
      simp only [saveGroup]
      rw [hg2]
      simp [regGroup]
    · exact ⟨⟨w.nextId, generateToken w.nextId input.environment now cfg, false,
        { conn with user := some w.nextId }⟩, by rw [heq], rfl⟩
  · intro hen hhint hu' hp' du hauth hfree' w2 hnu
    have heq := login_provision_eq w cfg ldapCfg o conn linput now dg w2 du hen hhint
      hu' hp' hauth hfree' hdg hnu
    have hg2 : w2.groups = w.groups := (handleNewUser_ok_shape _ _ _ _ _ hnu).2
    constructor
    · have hgw : (login w cfg ldapCfg o conn linput now).world.groups
          = (saveGroup w2 (regGroup dg w.nextId)).groups := by
        rw [heq, loginFinish_world_groups]
      rw [hgw]
      simp only [saveGroup]
      rw [hg2]
      simp [regGroup]
    · obtain ⟨r, hr1, _, hr3, _⟩ := loginFinish_out_shape
        (saveGroup w2 (regGroup dg w.nextId)) cfg conn linput
        (provUser w linput.username conn.ip now) now
      exact ⟨r, by rw [heq]; exact hr1, hr3⟩

/-- Witness for C10 at the concrete registration scenario. -/
theorem c10_default_group_creator_witness :
    (register scenWorld0 scenCfg scenConnA (scenInput "u1") 0 true).world.groups
        = scenWorld0.groups.map (fun g =>
            if g.id == (50 : Nat) then
              regGroup ⟨50, "默认群组", "ga", true, none, [], 0⟩ 100 else g) ∧
    ∃ r, (register scenWorld0 scenCfg scenConnA (scenInput "u1") 0 true).out = .ok r ∧
      r.userId = 100 :=
  (c10_default_group_creator scenWorld0 scenCfg c10Ldap c10Oracle scenConnA
      (scenInput "u1") c10Linput 0 ⟨50, "默认群组", "ga", true, none, [], 0⟩
      (by decide)).1 (by decide) (by decide) (by decide) (by decide) (by decide)
    (by decide) c10W2 (by decide)

/-- Group saves do not touch the user collection. -/
theorem saveGroup_users (w : World) (g : GroupRec) : (saveGroup w g).users = w.users := rfl

/-- login when the directory cleanly authenticates an existing identity:
the local comparison is skipped entirely. -/
theorem login_ldap_existing_eq (w : World) (cfg : ServerConfig) (ldapCfg : LdapConfig)
    (o : LdapOracle) (conn : Conn) (input : LoginInput) (now : Nat) (u : UserRec)
    (du : LdapUser)
    (hen : ldapCfg.enable = true)
    (hhint : input.authType ≠ some AuthType.local)
    (hu : input.username ≠ "") (hp : input.password ≠ "")
    (hauth : authenticateWithLdap ldapCfg o input.username input.password = .ok (some du))
    (hfind : w.users.find? (fun u0 => u0.username == input.username) = some u) :
    login w cfg ldapCfg o conn input now =
      loginFinish w cfg conn input { u with authProvider := "ldap" } now := by
  have hh : (input.authType == some AuthType.local) = false :=
    beq_eq_false_iff_ne.mpr hhint
  simp [login, hu, hp, hen, hh, hauth, hfind]

/-- C8 (amended): with the directory enabled and no local-auth hint, a
clean directory success on an existing identity logs in without any local
password comparison and tags the session as directory-authenticated; a
directory success on an absent identity auto-provisions it with provider
tag ldap and joins it to the default group provided the new-identity
bookkeeping (handleNewUser's counter read) succeeds — when that read
raises mid-provisioning, the raise is caught by the directory try and
login still succeeds on the partially provisioned state, with the
identity created and tagged ldap but never joined to the default group;
and a directory no-match or a raising directory step falls back to the
local credential path, with its not-found and bad-credential errors. -/
theorem c8_ldap_login (w : World) (cfg : ServerConfig) (ldapCfg : LdapConfig)
    (o : LdapOracle) (conn : Conn) (input : LoginInput) (now : Nat)
    (hen : ldapCfg.enable = true)
    (hhint : input.authType ≠ some AuthType.local)
    (hu : input.username ≠ "") (hp : input.password ≠ "") :
    (∀ du u, authenticateWithLdap ldapCfg o input.username input.password = .ok (some du) →
      w.users.find? (fun u0 => u0.username == input.username) = some u →
      ∃ r, (login w cfg ldapCfg o conn input now).out = .ok r ∧
        r.authProvider = "ldap" ∧ r.conn.user = some u.id) ∧
    (∀ du dg w2, authenticateWithLdap ldapCfg o input.username input.password = .ok (some du) →
      w.users.find? (fun u0 => u0.username == input.username) = none →
      w.groups.find? (fun g => g.isDefault) = some dg →
      handleNewUser
          { w with users := w.users ++ [provUser w input.username conn.ip now], nextId := w.nextId + 1 }
          (provUser w input.username conn.ip now) conn.ip now = .ok w2 →
      (∃ r, (login w cfg ldapCfg o conn input now).out = .ok r ∧ r.authProvider = "ldap") ∧
      (login w cfg ldapCfg o conn input now).world.groups
        = w.groups.map (fun g => if g.id == dg.id then regGroup dg w.nextId else g) ∧
      (∃ u', u' ∈ (login w cfg ldapCfg o conn input now).world.users ∧
        u'.id = w.nextId ∧ u'.username = input.username ∧ u'.authProvider = "ldap")) ∧
    (∀ du dg e, authenticateWithLdap ldapCfg o input.username input.password = .ok (some du) →
      w.users.find? (fun u0 => u0.username == input.username) = none →
      w.groups.find? (fun g => g.isDefault) = some dg →
      handleNewUser
          { w with users := w.users ++ [provUser w input.username conn.ip now], nextId := w.nextId + 1 }
          (provUser w input.username conn.ip now) conn.ip now = .error e →
      (∃ r, (login w cfg ldapCfg o conn input now).out = .ok r ∧
        r.authProvider = "ldap" ∧ r.userId = w.nextId) ∧
      (login w cfg ldapCfg o conn input now).world.groups = w.groups ∧
      (∃ u', u' ∈ (login w cfg ldapCfg o conn input now).world.users ∧
        u'.id = w.nextId ∧ u'.username = input.username ∧ u'.authProvider = "ldap") ∧
      ((∀ g ∈ w.groups, w.nextId ∉ g.members) →
        ∀ g ∈ (login w cfg ldapCfg o conn input now).world.groups, w.nextId ∉ g.members)) ∧
    ((authenticateWithLdap ldapCfg o input.username input.password = .ok none ∨
      ∃ msg, authenticateWithLdap ldapCfg o input.username input.password = .error msg) →
      (w.users.find? (fun u0 => u0.username == input.username) = none →
        (login w cfg ldapCfg o conn input now).out = .error "该用户不存在") ∧
      (∀ u, w.users.find? (fun u0 => u0.username == input.username) = some u →
        bcryptCompare input.password u.password = false →
        (login w cfg ldapCfg o conn input now).out = .error "密码错误") ∧
      (∀ u, w.users.find? (fun u0 => u0.username == input.username) = some u →
        bcryptCompare input.password u.password = true →
        ∃ r, (login w cfg ldapCfg o conn input now).out = .ok r)) := by
  have hh : (input.authType == some AuthType.local) = false :=
    beq_eq_false_iff_ne.mpr hhint
  refine ⟨?_, ?_, ?_, ?_⟩
  · intro du u hauth hfind
    rw [login_ldap_existing_eq w cfg ldapCfg o conn input now u du hen hhint hu hp hauth hfind]
    exact ⟨_, rfl, rfl, rfl⟩
  · intro du dg w2 hauth hfree hdg hnu
    have heq := login_provision_eq w cfg ldapCfg o conn input now dg w2 du hen hhint
      hu hp hauth hfree hdg hnu
    have hg2 : w2.groups = w.groups := (handleNewUser_ok_shape _ _ _ _ _ hnu).2
    have hu2 : w2.users = w.users ++ [provUser w input.username conn.ip now] :=
      (handleNewUser_ok_shape _ _ _ _ _ hnu).1
    refine ⟨?_, ?_, ?_⟩
    · rw [heq]
      exact ⟨_, rfl, rfl⟩
    · have hgw : (login w cfg ldapCfg o conn input now).world.groups
          = (saveGroup w2 (regGroup dg w.nextId)).groups := by
        rw [heq, loginFinish_world_groups]
      rw [hgw]
      simp only [saveGroup]
      rw [hg2]
      simp [regGroup]
    · have husers : (login w cfg ldapCfg o conn input now).world.users
          = (w.users ++ [provUser w input.username conn.ip now]).map
              (fun u0 => if u0.id == (provUser w input.username conn.ip now).id then
                { provUser w input.username conn.ip now with
                  lastLoginTime := now, lastLoginIp := conn.ip } else u0) := by
        rw [heq, loginFinish_world_users]
        rw [show (saveGroup w2 (regGroup dg w.nextId)).users
            = w.users ++ [provUser w input.username conn.ip now] from by
          rw [saveGroup_users, hu2]]
      refine ⟨{ provUser w input.username conn.ip now with
          lastLoginTime := now, lastLoginIp := conn.ip }, ?_, rfl, rfl, rfl⟩
      rw [husers]
      exact List.mem_map.mpr ⟨provUser w input.username conn.ip now, by simp, by simp⟩
  · intro du dg e hauth hfree hdg hnu
    have heq := login_provision_err_eq w cfg ldapCfg o conn input now dg du e hen hhint
      hu hp hauth hfree hdg hnu
    refine ⟨?_, ?_, ?_, ?_⟩
    · rw [heq]
      exact ⟨_, rfl, rfl, rfl⟩
    · rw [heq, loginFinish_world_groups]
    · have husers : (login w cfg ldapCfg o conn input now).world.users
          = (w.users ++ [provUser w input.username conn.ip now]).map
              (fun u0 => if u0.id == (provUser w input.username conn.ip now).id then
                { provUser w input.username conn.ip now with
                  lastLoginTime := now, lastLoginIp := conn.ip } else u0) := by
        rw [heq, loginFinish_world_users]
      refine ⟨{ provUser w input.username conn.ip now with
          lastLoginTime := now, lastLoginIp := conn.ip }, ?_, rfl, rfl, rfl⟩
      rw [husers]
      exact List.mem_map.mpr ⟨provUser w input.username conn.ip now, by simp, by simp⟩
    · intro hfresh g hg
      rw [heq, loginFinish_world_groups] at hg
      exact hfresh g hg
  · intro hfb
    have hphase : ∀ P : World × Option UserRec × Bool → Prop,
        P (w, w.users.find? (fun u0 => u0.username == input.username), false) →
        P (if ldapCfg.enable && !(input.authType == some AuthType.local) then
            match authenticateWithLdap ldapCfg o input.username input.password with
            | .error _ => (w, w.users.find? (fun u0 => u0.username == input.username), false)
            | .ok none => (w, w.users.find? (fun u0 => u0.username == input.username), false)
            | .ok (some _) =>
              match w.users.find? (fun u0 => u0.username == input.username) with
              | some u => (w, some { u with authProvider := "ldap" }, true)
              | none =>
                match provisionLdapUser w input.username conn.ip now with
                | (w', opt) => (w', (opt.map (fun u => { u with authProvider := "ldap" })), true)
          else (w, w.users.find? (fun u0 => u0.username == input.username), false)) := by
      intro P hP
      rcases hfb with hnone | ⟨msg, herr⟩
      · simp [hen, hh, hnone]
        exact hP
      · simp [hen, hh, herr]
        exact hP
    refine ⟨?_, ?_, ?_⟩
    · intro hfree
      rcases hfb with hnone | ⟨msg, herr⟩
      · simp [login, hu, hp, hen, hh, hnone, hfree, opErr]
      · simp [login, hu, hp, hen, hh, herr, hfree, opErr]
    · intro u hfind hcmp
      rcases hfb with hnone | ⟨msg, herr⟩
      · simp [login, hu, hp, hen, hh, hnone, hfind, hcmp, opErr]
      · simp [login, hu, hp, hen, hh, herr, hfind, hcmp, opErr]
    · intro u hfind hcmp
      rcases hfb with hnone | ⟨msg, herr⟩
      · have hnu := handleNewUser_noIp w u now
        simp [login, hu, hp, hen, hh, hnone, hfind, hcmp, hnu, loginFinish]
      · have hnu := handleNewUser_noIp w u now
        simp [login, hu, hp, hen, hh, herr, hfind, hcmp, hnu, loginFinish]

/-- Witness for C8: the directory authenticates tuser8 with the directory
password even though it differs from the stored local credential. -/
theorem c8_ldap_login_witness :
    ∃ r, (login c8World c6Cfg c8Ldap c8Oracle c6Conn c8Input 5).out = .ok r ∧
      r.authProvider = "ldap" ∧ r.conn.user = some 77 :=
  (c8_ldap_login c8World c6Cfg c8Ldap c8Oracle c6Conn c8Input 5
      (by decide) (by decide) (by decide) (by decide)).1
    ⟨"uid=tuser8,dc=b"⟩ c8User (by decide) (by decide)

/-- C8: counterexample to the unconditional default-group join.  On
c8FailWorld the directory authenticates the unknown identity ghost, the
counter read inside handleNewUser raises mid-provisioning and the raise
is caught by login's directory try: login still succeeds as a directory
session and the identity exists with provider tag ldap, but the default
group's member list is untouched — the provisioned identity was never
joined to it. -/
theorem c8_counterexample :
    c8FailRun.out.toOption.map (fun r => (r.userId, r.authProvider)) = some (100, "ldap") ∧
    c8FailRun.world.users.map (fun u => (u.id, u.username, u.authProvider))
      = [(100, "ghost", "ldap")] ∧
    c8FailRun.world.groups = [⟨50, "默认群组", "ga", true, none, [], 0⟩] := by
  decide

/-- C4: a fully successful deleteUser (all store operations succeeding)
leaves no reference to the identity in any group member list, in either
friendship direction, in messages authored by it or in the history
records of those messages, in socket records, or in notification
subscriptions; every group survives with its id (the member groups with
the identity erased and the creator reference cleared when it pointed at
the identity); the cleanup steps leave the user collection untouched so
the Identity record itself is removed only by the final step; and
hardDeleteUser delegates to the same procedure by resolved handle. -/
theorem c4_delete_completeness (w : World) (username : String) (u : UserRec)
    (husername : username ≠ "")
    (hfind : w.users.find? (fun u0 => u0.username == username) = some u)
    (hidfind : w.users.find? (fun u0 => u0.id == u.id) = some u)
    (hcount : ∀ g ∈ w.groups, g.members.count u.id ≤ 1) :
    (deleteUser w username noFailures).out = .ok () ∧
    (∀ u0 ∈ (deleteUser w username noFailures).world.users, u0.id ≠ u.id) ∧
    (∀ g ∈ (deleteUser w username noFailures).world.groups, u.id ∉ g.members) ∧
    (deleteUser w username noFailures).world.groups.map (fun g => g.id)
      = w.groups.map (fun g => g.id) ∧
    (∀ g0 ∈ w.groups, u.id ∈ g0.members →
      ∃ g1 ∈ (deleteUser w username noFailures).world.groups,
        g1.id = g0.id ∧ g1.members = g0.members.erase u.id ∧ g1.creator ≠ some u.id) ∧
    (∀ fr ∈ (deleteUser w username noFailures).world.friends,
      fr.fromId ≠ u.id ∧ fr.toId ≠ u.id) ∧
    (∀ m ∈ (deleteUser w username noFailures).world.messages, m.fromId ≠ u.id) ∧
    (∀ h0 ∈ (deleteUser w username noFailures).world.histories,
      h0.message ∉ (w.messages.filter (fun m => m.fromId == u.id)).map (fun m => m.id)) ∧
    (∀ s ∈ (deleteUser w username noFailures).world.sockets, s.user ≠ some u.id) ∧
    (∀ n ∈ (deleteUser w username noFailures).world.notifications, n.user ≠ u.id) ∧
    (deleteUserCleanup w u noFailures).1.users = w.users ∧
    hardDeleteUser w true u.id noFailures = deleteUser w username noFailures := by
  have hname : u.username = username := by
    have := List.find?_some hfind
    simpa using this
  cases hmsg : (w.messages.filter (fun m => m.fromId == u.id)).isEmpty with
  | true =>
    have hnomsg : ∀ m ∈ w.messages, ¬ (m.fromId == u.id) = true := by
      intro m hm
      exact List.filter_eq_nil_iff.mp (List.isEmpty_iff.mp hmsg) m hm
    refine ⟨?_, ?_, ?_, ?_, ?_, ?_, ?_, ?_, ?_, ?_, ?_, ?_⟩
    · simp [deleteUser, deleteUserCleanup, noFailures, husername, hfind,
        forceDisconnectSockets, redisDelKey, hmsg, opErr]
    · intro u0 hu0
      simp [deleteUser, deleteUserCleanup, noFailures, husername, hfind,
        forceDisconnectSockets, redisDelKey, hmsg] at hu0
      exact hu0.2
    · intro g hg
      simp [deleteUser, deleteUserCleanup, noFailures, husername, hfind,
        forceDisconnectSockets, redisDelKey, hmsg] at hg
      obtain ⟨g0, hg0, hgeq⟩ := hg
      by_cases hmem : u.id ∈ g0.members
      · rw [← hgeq]
        have hc := hcount g0 hg0
        have hc' : (g0.members.erase u.id).count u.id = 0 := by
          rw [List.count_erase_self]
          omega
        have hne := List.count_eq_zero.mp hc'
        simpa [hmem] using hne
      · rw [← hgeq]
        simp [hmem]
    · rw [show (deleteUser w username noFailures).world.groups
          = w.groups.map (fun g0 => if g0.members.contains u.id then
              { g0 with
                members := g0.members.erase u.id
                creator := if g0.creator == some u.id then none else g0.creator } else g0)
          from by
        simp [deleteUser, deleteUserCleanup, noFailures, husername, hfind,
          forceDisconnectSockets, redisDelKey, hmsg]]
      rw [List.map_map]
      apply List.map_congr_left
      intro g hg
      by_cases hmem : u.id ∈ g.members <;> simp [hmem]
    · intro g0 hg0 hmem
      refine ⟨{ g0 with
          members := g0.members.erase u.id
          creator := if g0.creator == some u.id then none else g0.creator }, ?_, rfl, rfl, ?_⟩
      · simp [deleteUser, deleteUserCleanup, noFailures, husername, hfind,
          forceDisconnectSockets, redisDelKey, hmsg]
        exact ⟨g0, hg0, by simp [hmem]⟩
      · by_cases hc : (g0.creator == some u.id) = true
        · simp [hc]
        · have hc' : (g0.creator == some u.id) = false := by simpa using hc
          simp only [hc', Bool.false_eq_true, if_false]
          exact beq_eq_false_iff_ne.mp hc' 
    · intro fr hfr
      simp [deleteUser, deleteUserCleanup, noFailures, husername, hfind,
        forceDisconnectSockets, redisDelKey, hmsg] at hfr
      tauto
    · intro m hm
      simp [deleteUser, deleteUserCleanup, noFailures, husername, hfind,
        forceDisconnectSockets, redisDelKey, hmsg] at hm
      have := hnomsg m hm
      simpa using this
    · intro h0 hh0
      rw [List.isEmpty_iff.mp hmsg]
      simp
    · intro s hs
      simp [deleteUser, deleteUserCleanup, noFailures, husername, hfind,
        forceDisconnectSockets, redisDelKey, hmsg] at hs
      exact hs.2
    · intro n hn
      simp [deleteUser, deleteUserCleanup, noFailures, husername, hfind,
        forceDisconnectSockets, redisDelKey, hmsg] at hn
      exact hn.2
    · simp [deleteUserCleanup, noFailures, forceDisconnectSockets, redisDelKey, hmsg]
    · simp [hardDeleteUser, hidfind, hname]
  | false =>
    refine ⟨?_, ?_, ?_, ?_, ?_, ?_, ?_, ?_, ?_, ?_, ?_, ?_⟩
    · simp [deleteUser, deleteUserCleanup, noFailures, husername, hfind,
        forceDisconnectSockets, redisDelKey, hmsg, opErr]
    · intro u0 hu0
      simp [deleteUser, deleteUserCleanup, noFailures, husername, hfind,
        forceDisconnectSockets, redisDelKey, hmsg] at hu0
      exact hu0.2
    · intro g hg
      simp [deleteUser, deleteUserCleanup, noFailures, husername, hfind,
        forceDisconnectSockets, redisDelKey, hmsg] at hg
      obtain ⟨g0, hg0, hgeq⟩ := hg
      by_cases hmem : u.id ∈ g0.members
      · rw [← hgeq]
        have hc := hcount g0 hg0
        have hc' : (g0.members.erase u.id).count u.id = 0 := by
          rw [List.count_erase_self]
          omega
        have hne := List.count_eq_zero.mp hc'
        simpa [hmem] using hne
      · rw [← hgeq]
        simp [hmem]
    · rw [show (deleteUser w username noFailures).world.groups
          = w.groups.map (fun g0 => if g0.members.contains u.id then
              { g0 with
                members := g0.members.erase u.id
                creator := if g0.creator == some u.id then none else g0.creator } else g0)
          from by
        simp [deleteUser, deleteUserCleanup, noFailures, husername, hfind,
          forceDisconnectSockets, redisDelKey, hmsg]]
      rw [List.map_map]
      apply List.map_congr_left
      intro g hg
      by_cases hmem : u.id ∈ g.members <;> simp [hmem]
    · intro g0 hg0 hmem
      refine ⟨{ g0 with
          members := g0.members.erase u.id
          creator := if g0.creator == some u.id then none else g0.creator }, ?_, rfl, rfl, ?_⟩
      · simp [deleteUser, deleteUserCleanup, noFailures, husername, hfind,
          forceDisconnectSockets, redisDelKey, hmsg]
        exact ⟨g0, hg0, by simp [hmem]⟩
      · by_cases hc : (g0.creator == some u.id) = true
        · simp [hc]
        · have hc' : (g0.creator == some u.id) = false := by simpa using hc
          simp only [hc', Bool.false_eq_true, if_false]
          exact beq_eq_false_iff_ne.mp hc' 
    · intro fr hfr
      simp [deleteUser, deleteUserCleanup, noFailures, husername, hfind,
        forceDisconnectSockets, redisDelKey, hmsg] at hfr
      tauto
    · intro m hm
      simp [deleteUser, deleteUserCleanup, noFailures, husername, hfind,
        forceDisconnectSockets, redisDelKey, hmsg] at hm
      simpa using hm.2
    · intro h0 hh0
      simp [deleteUser, deleteUserCleanup, noFailures, husername, hfind,
        forceDisconnectSockets, redisDelKey, hmsg] at hh0
      simpa using hh0.2
    · intro s hs
      simp [deleteUser, deleteUserCleanup, noFailures, husername, hfind,
        forceDisconnectSockets, redisDelKey, hmsg] at hs
      exact hs.2
    · intro n hn
      simp [deleteUser, deleteUserCleanup, noFailures, husername, hfind,
        forceDisconnectSockets, redisDelKey, hmsg] at hn
      exact hn.2
    · simp [deleteUserCleanup, noFailures, forceDisconnectSockets, redisDelKey, hmsg]
    · simp [hardDeleteUser, hidfind, hname]

/-- Witness for C4 at the concrete c4World scenario: alice (two groups,
creator of one, two friends both directions, three messages counting two
authored, live sockets, a subscription). -/
theorem c4_delete_completeness_witness :
    (deleteUser c4World "alice" noFailures).out = .ok () ∧
    ∀ u0 ∈ (deleteUser c4World "alice" noFailures).world.users, u0.id ≠ 1 :=
  ⟨(c4_delete_completeness c4World "alice" ⟨1, "alice", "s", "pw", "a", "", 0, 0, "ip", ""⟩
      (by decide) (by decide) (by decide) (by decide)).1,
    (c4_delete_completeness c4World "alice" ⟨1, "alice", "s", "pw", "a", "", 0, 0, "ip", ""⟩
      (by decide) (by decide) (by decide) (by decide)).2.1⟩

/-- C5: counterexample to across-the-board best-effort cleanup.  On
c5World the message-deletion store call fails (c5Failures); deleteUser
aborts with the store error instead of continuing, so the group member
list, both friendship directions, the socket record, the notification
subscription and the Identity record itself are all still present
afterwards. -/
theorem c5_counterexample :
    c5Run.out = Except.error dbError ∧
    c5Run.world.users = c5World.users ∧
    c5Run.world.groups = c5World.groups ∧
    c5Run.world.friends = c5World.friends ∧
    c5Run.world.sockets = c5World.sockets ∧
    c5Run.world.notifications = c5World.notifications := by
  decide

/-- C5 (amended): only the expiring-store cleanup (redis key deletion) is
best-effort — its failure is caught and the procedure continues through
the final Identity deletion, which still removes the user record — while
a failure in any other step of the procedure propagates and aborts the
operation, leaving every subsequent step, including deletion of the
Identity record itself, unexecuted: for each of the eleven remaining
steps failing on its own (socket lookup, message lookup, history
deletion, message deletion — the latter two reachable when the identity
authored a message —, group lookup, group save, both friend-edge
deletions, socket-record deletion, notification deletion, and the final
Identity deletion itself) the operation raises the store error with the
Identity record still present, and for every aborting cleanup step the
notification subscriptions — removed only by the last cleanup step — are
untouched; a failure in the very first cleanup step leaves every durable
collection as it was. -/
theorem c5_best_effort_scope (w : World) (username : String) (u : UserRec)
    (husername : username ≠ "")
    (hfind : w.users.find? (fun u0 => u0.username == username) = some u) :
    (deleteUser w username redisOnlyFailure).out = Except.ok () ∧
    (deleteUser w username redisOnlyFailure).world.users
      = w.users.filter (fun u0 => !(u0.id == u.id)) ∧
    ((deleteUser w username { noFailures with socketFind := true }).out
        = Except.error dbError ∧
      (deleteUser w username { noFailures with socketFind := true }).world.users = w.users ∧
      (deleteUser w username { noFailures with socketFind := true }).world.messages
        = w.messages ∧
      (deleteUser w username { noFailures with socketFind := true }).world.histories
        = w.histories ∧
      (deleteUser w username { noFailures with socketFind := true }).world.groups
        = w.groups ∧
      (deleteUser w username { noFailures with socketFind := true }).world.friends
        = w.friends ∧
      (deleteUser w username { noFailures with socketFind := true }).world.sockets
        = w.sockets ∧
      (deleteUser w username { noFailures with socketFind := true }).world.notifications
        = w.notifications) ∧
    ((deleteUser w username { noFailures with messageFind := true }).out
        = Except.error dbError ∧
      (deleteUser w username { noFailures with messageFind := true }).world.users = w.users ∧
      (deleteUser w username { noFailures with messageFind := true }).world.notifications
        = w.notifications) ∧
    ((w.messages.filter (fun m => m.fromId == u.id)).isEmpty = false →
      (deleteUser w username { noFailures with historyDelete := true }).out
          = Except.error dbError ∧
      (deleteUser w username { noFailures with historyDelete := true }).world.users
          = w.users ∧
      (deleteUser w username { noFailures with historyDelete := true }).world.notifications
          = w.notifications) ∧
    ((w.messages.filter (fun m => m.fromId == u.id)).isEmpty = false →
      (deleteUser w username { noFailures with messageDelete := true }).out
          = Except.error dbError ∧
      (deleteUser w username { noFailures with messageDelete := true }).world.users
          = w.users ∧
      (deleteUser w username { noFailures with messageDelete := true }).world.notifications
          = w.notifications) ∧
    ((deleteUser w username { noFailures with groupFind := true }).out
        = Except.error dbError ∧
      (deleteUser w username { noFailures with groupFind := true }).world.users = w.users ∧
      (deleteUser w username { noFailures with groupFind := true }).world.notifications
        = w.notifications) ∧
    ((deleteUser w username { noFailures with groupSave := true }).out
        = Except.error dbError ∧
      (deleteUser w username { noFailures with groupSave := true }).world.users = w.users ∧
      (deleteUser w username { noFailures with groupSave := true }).world.notifications
        = w.notifications) ∧
    ((deleteUser w username { noFailures with friendDeleteFrom := true }).out
        = Except.error dbError ∧
      (deleteUser w username { noFailures with friendDeleteFrom := true }).world.users
        = w.users ∧
      (deleteUser w username { noFailures with friendDeleteFrom := true }).world.notifications
        = w.notifications) ∧
    ((deleteUser w username { noFailures with friendDeleteTo := true }).out
        = Except.error dbError ∧
      (deleteUser w username { noFailures with friendDeleteTo := true }).world.users
        = w.users ∧
      (deleteUser w username { noFailures with friendDeleteTo := true }).world.notifications
        = w.notifications) ∧
    ((deleteUser w username { noFailures with socketDelete := true }).out
        = Except.error dbError ∧
      (deleteUser w username { noFailures with socketDelete := true }).world.users = w.users ∧
      (deleteUser w username { noFailures with socketDelete := true }).world.notifications
        = w.notifications) ∧
    ((deleteUser w username { noFailures with notificationDelete := true }).out
        = Except.error dbError ∧
      (deleteUser w username { noFailures with notificationDelete := true }).world.users
        = w.users ∧
      (deleteUser w username { noFailures with notificationDelete := true }).world.notifications
        = w.notifications) ∧
    ((deleteUser w username { noFailures with userDelete := true }).out
        = Except.error dbError ∧
      (deleteUser w username { noFailures with userDelete := true }).world.users = w.users) := by
  refine ⟨?_, ?_, ?_, ?_, ?_, ?_, ?_, ?_, ?_, ?_, ?_, ?_, ?_⟩
  · cases hmsg : (w.messages.filter (fun m => m.fromId == u.id)).isEmpty <;>
      simp [deleteUser, deleteUserCleanup, redisOnlyFailure, husername, hfind,
        forceDisconnectSockets, redisDelKey, hmsg, opErr]
  · cases hmsg : (w.messages.filter (fun m => m.fromId == u.id)).isEmpty <;>
      simp [deleteUser, deleteUserCleanup, redisOnlyFailure, husername, hfind,
        forceDisconnectSockets, redisDelKey, hmsg, opErr]
  · simp [deleteUser, deleteUserCleanup, noFailures, husername, hfind,
      redisDelKey, opErr]
  · simp [deleteUser, deleteUserCleanup, noFailures, husername, hfind,
      forceDisconnectSockets, redisDelKey, opErr]
  · intro hne
    simp [deleteUser, deleteUserCleanup, noFailures, husername, hfind,
      forceDisconnectSockets, redisDelKey, hne, opErr]
  · intro hne
    simp [deleteUser, deleteUserCleanup, noFailures, husername, hfind,
      forceDisconnectSockets, redisDelKey, hne, opErr]
  · cases hmsg : (w.messages.filter (fun m => m.fromId == u.id)).isEmpty <;>
      simp [deleteUser, deleteUserCleanup, noFailures, husername, hfind,
        forceDisconnectSockets, redisDelKey, hmsg, opErr]
  · cases hmsg : (w.messages.filter (fun m => m.fromId == u.id)).isEmpty <;>
      simp [deleteUser, deleteUserCleanup, noFailures, husername, hfind,
        forceDisconnectSockets, redisDelKey, hmsg, opErr]
  · cases hmsg : (w.messages.filter (fun m => m.fromId == u.id)).isEmpty <;>
      simp [deleteUser, deleteUserCleanup, noFailures, husername, hfind,
        forceDisconnectSockets, redisDelKey, hmsg, opErr]
  · cases hmsg : (w.messages.filter (fun m => m.fromId == u.id)).isEmpty <;>
      simp [deleteUser, deleteUserCleanup, noFailures, husername, hfind,
        forceDisconnectSockets, redisDelKey, hmsg, opErr]
  · cases hmsg : (w.messages.filter (fun m => m.fromId == u.id)).isEmpty <;>
      simp [deleteUser, deleteUserCleanup, noFailures, husername, hfind,
        forceDisconnectSockets, redisDelKey, hmsg, opErr]
  · cases hmsg : (w.messages.filter (fun m => m.fromId == u.id)).isEmpty <;>
      simp [deleteUser, deleteUserCleanup, noFailures, husername, hfind,
        forceDisconnectSockets, redisDelKey, hmsg, opErr]
  · cases hmsg : (w.messages.filter (fun m => m.fromId == u.id)).isEmpty <;>
      simp [deleteUser, deleteUserCleanup, noFailures, husername, hfind,
        forceDisconnectSockets, redisDelKey, hmsg, opErr]

/-- Witness for the amended C5 on c5World: the redis-only failure run
still completes, while failures in the socket lookup, the message
deletion and the final Identity deletion each leave alice's record in
place. -/
theorem c5_best_effort_scope_witness :
    (deleteUser c5World "alice" redisOnlyFailure).out = Except.ok () ∧
    (deleteUser c5World "alice" { noFailures with socketFind := true }).world.users
      = c5World.users ∧
    (deleteUser c5World "alice" { noFailures with messageDelete := true }).world.users
      = c5World.users ∧
    (deleteUser c5World "alice" { noFailures with userDelete := true }).world.users
      = c5World.users := by
  have h := c5_best_effort_scope c5World "alice"
    ⟨1, "alice", "s", "pw", "a", "", 0, 0, "ip", ""⟩ (by decide) (by decide)
  obtain ⟨h1, h2, h3, h4, h5, h6, h7, h8, h9, h10, h11, h12, h13⟩ := h
  exact ⟨h1, h3.2.1, (h6 (by decide)).2.1, h13.2⟩

end Fiora
